import Mathlib

/-!
Shallow embedding of the Chlorella vulgaris synthetic-dataset generator
(`src/server.js`, together with the additional source revisions kept in
`src/unnamed/`).  JavaScript numbers are modelled as exact rationals (`ℚ`);
every `Math.random()` draw is an explicit input constrained to `[0, 1)`;
the transcendental library functions `Math.sin` and `Math.exp` are modelled
by an `Oracle` of rational-valued stand-ins whose mathematically guaranteed
ranges are recorded in `OracleValid`.  `parseFloat(x.toFixed(d))` is
modelled by `roundTo d` (ES `toFixed` picks the nearest multiple of
`10 ^ (-d)` and resolves ties upward, which is Mathlib's `round`).
-/

namespace Chlorella

/-- Light regime of a scenario (the string `'continuous' | 'cyclic'` in the
source). -/
inductive LightRegime
  | continuous
  | cyclic
deriving DecidableEq, Repr

/-- Stress condition of a scenario (the string
`'normal' | 'high_temp' | 'low_pH'` in the source). -/
inductive StressCondition
  | normal
  | high_temp
  | low_pH
deriving DecidableEq, Repr

/-- Rational-valued stand-ins for the transcendental library functions used
by the simulator.  `sin x` models `Math.sin x`, `sinPi x` models
`Math.sin (x * Math.PI)` and `expNegSq x` models `Math.exp (-(x ^ 2))`. -/
structure Oracle where
  sin : ℚ → ℚ
  sinPi : ℚ → ℚ
  expNegSq : ℚ → ℚ

/-- The ranges that the real transcendental functions are guaranteed to
satisfy: `Math.sin` lands in `[-1, 1]`, `Math.sin (x * π)` is nonnegative
for `x ∈ [0, 1]`, and `Math.exp (-(x ^ 2))` lands in `(0, 1] ⊆ [0, 1]`. -/
structure OracleValid (o : Oracle) : Prop where
  sin_bounds : ∀ x, -1 ≤ o.sin x ∧ o.sin x ≤ 1
  sinPi_bounds : ∀ x, -1 ≤ o.sinPi x ∧ o.sinPi x ≤ 1
  sinPi_nonneg : ∀ x, 0 ≤ x → x ≤ 1 → 0 ≤ o.sinPi x
  expNegSq_bounds : ∀ x, 0 ≤ o.expNegSq x ∧ o.expNegSq x ≤ 1

/-- A stream of `Math.random()` draws, each in `[0, 1)`. -/
def RandsValid (r : ℕ → ℚ) : Prop := ∀ i, 0 ≤ r i ∧ r i < 1

/-- Per-scenario parameters (server.js:37-56), sampled once per scenario and
immutable for its duration. -/
structure ScenarioParams where
  baseTemp : ℚ
  basePh : ℚ
  maxPAR : ℚ
  initialBiomass : ℚ
  nutrientLevel : ℚ
  lightRegime : LightRegime
  stressCondition : StressCondition
  muMax : ℚ
  Ks_light : ℚ
  Ks_nutrient : ℚ
  Ki_biomass : ℚ
  tempOptimal : ℚ
  pHOptimal : ℚ
  noiseLevel : ℚ
deriving DecidableEq

/-- The mutable per-scenario culture state (server.js:58-69), one value per
loop iteration. -/
structure CultureState where
  biomass : ℚ
  cellConcentration : ℚ
  currentpH : ℚ
  currentTemp : ℚ
  nutrients : ℚ
  oxygenLevel : ℚ
  co2Level : ℚ
  totalProductivity : ℚ
  cumulativeBiomass : ℚ
deriving DecidableEq

/-- Variability multipliers (server.js:24-29). -/
structure VariabilityConfig where
  tempRange : ℚ
  pHRange : ℚ
  stressProb : ℚ
  noiseLevel : ℚ
deriving DecidableEq

/-- The table `variabilityConfig[variabilityLevel] || variabilityConfig.medium`
(server.js:24-31): unknown levels fall back to `medium`. -/
def variabilityConfig (lvl : String) : VariabilityConfig :=
  if lvl = "low" then ⟨3, 6/10, 1/10, 1/100⟩
  else if lvl = "medium" then ⟨10, 12/10, 2/10, 3/100⟩
  else if lvl = "high" then ⟨15, 18/10, 4/10, 5/100⟩
  else if lvl = "extreme" then ⟨20, 25/10, 6/10, 8/100⟩
  else ⟨10, 12/10, 2/10, 3/100⟩

/-- Scenario-parameter sampling (server.js:37-56).  `r i` is the `i`-th
`Math.random()` draw of the sampling block, in source order. -/
def sampleParams (cfg : VariabilityConfig) (r : ℕ → ℚ) : ScenarioParams where
  baseTemp := 15 + r 0 * cfg.tempRange
  basePh := 65/10 + r 1 * cfg.pHRange
  maxPAR := 200 + r 2 * 800
  initialBiomass := 2/100 + r 3 * (1/2)
  nutrientLevel := 3/10 + r 4 * (7/10)
  lightRegime := if 3/10 < r 5 then LightRegime.continuous else LightRegime.cyclic
  stressCondition :=
    if 1 - cfg.stressProb < r 6 then
      if 1/2 < r 7 then StressCondition.high_temp else StressCondition.low_pH
    else StressCondition.normal
  muMax := 4/100 + r 8 * (8/100)
  Ks_light := 100 + r 9 * 400
  Ks_nutrient := 2/100 + r 10 * (15/100)
  Ki_biomass := 2 + r 11 * 4
  tempOptimal := 20 + r 12 * 10
  pHOptimal := 68/10 + r 13 * (8/10)
  noiseLevel := cfg.noiseLevel + r 14 * cfg.noiseLevel

/-- Models `parseFloat(x.toFixed(d))`: round to the nearest multiple of
`10 ^ (-d)`, ties upward (the ES `toFixed` tie rule "pick the larger n"). -/
def roundTo (d : ℕ) (x : ℚ) : ℚ := (round (x * 10 ^ d) : ℚ) / 10 ^ d

/-- Light intensity of one loop iteration (server.js:75-89).  `rl` is the
single `Math.random()` draw of the branch that is taken; at night the
intensity is exactly `0`. -/
def lightIntensity (p : ScenarioParams) (o : Oracle) (rl : ℚ) (h : ℕ) : ℚ :=
  if p.lightRegime = LightRegime.continuous then
    p.maxPAR * (95/100 + (1/10) * rl)
  else if 6 ≤ h % 24 ∧ h % 24 ≤ 18 then
    p.maxPAR * o.sinPi ((((h % 24 : ℕ) : ℚ) - 6) / 12) * (85/100 + (3/10) * rl)
  else 0

/-- Temperature variation (server.js:92-100): slow stress drift under
`high_temp`, gradual sinusoid plus jitter otherwise. -/
def tempVariation (p : ScenarioParams) (o : Oracle) (rt : ℚ) (h : ℕ) : ℚ :=
  if p.stressCondition = StressCondition.high_temp then
    5 + o.sin ((h : ℚ) * (2/100)) * 8 + rt * 2
  else
    o.sin ((h : ℚ) * (1/100)) * 2 + (rt - 1/2) * 1

/-- Current temperature (server.js:102-105): base plus variation plus
circadian sinusoid, clamped to `[15, 40]`. -/
def currentTempOf (p : ScenarioParams) (o : Oracle) (rt : ℚ) (h : ℕ) : ℚ :=
  max 15 (min 40
    (p.baseTemp + tempVariation p o rt h + 1 * o.sinPi (((h % 24 : ℕ) : ℚ) / 12)))

/-- pH drift (server.js:108-115): gradual acid drift under `low_pH` stress,
small sinusoid plus jitter otherwise. -/
def pHDriftOf (p : ScenarioParams) (o : Oracle) (rp : ℚ) (h : ℕ) : ℚ :=
  if p.stressCondition = StressCondition.low_pH then
    -(1/2) + o.sin ((h : ℚ) * (15/1000)) * (3/10) + rp * (1/10)
  else
    o.sin ((h : ℚ) * (8/1000)) * (15/100) + (rp - 1/2) * (5/100)

/-- Current pH (server.js:117-120): base plus drift plus a biomass
by-product term, clamped to `[6.0, 9.0]`. -/
def currentpHOf (p : ScenarioParams) (o : Oracle) (rp : ℚ) (h : ℕ) (b : ℚ) : ℚ :=
  max 6 (min 9 (p.basePh + pHDriftOf p o rp h + (b - p.initialBiomass) * (5/100)))

/-- Michaelis-Menten nutrient uptake of one step (server.js:123). -/
def nutrientUptakeOf (n b : ℚ) : ℚ := n / (n + 5/100) * b * (8/1000)

/-- Updated nutrient pool (server.js:124), floored at the residual `0.05`. -/
def newNutrients (n b : ℚ) : ℚ := max (5/100) (n - nutrientUptakeOf n b)

/-- Updated dissolved oxygen (server.js:127-130), clamped to `[2, 12]`. -/
def newOxygenLevel (lvl li b : ℚ) : ℚ :=
  max 2 (min 12 (lvl + ((if 0 < li then b * (3/10) else 0) - b * (8/100)) * (2/1000)))

/-- Updated CO2 fraction (server.js:133-135), clamped to `[0.01, 0.1]`;
`rc` is the jitter draw. -/
def newCO2Level (c li b rc : ℚ) : ℚ :=
  max (1/100) (min (1/10)
    (c - (if 0 < li then b * (8/10000) else 0) + 5/10000 + (rc - 1/2) * (2/10000)))

/-- Saturating light limitation factor (server.js:140). -/
def lightEffectOf (li Ks : ℚ) : ℚ := li / (li + Ks)

/-- Gaussian-shaped temperature limitation factor (server.js:143-145). -/
def tempEffectOf (p : ScenarioParams) (o : Oracle) (T : ℚ) : ℚ :=
  if 10 ≤ T ∧ T ≤ 45 then o.expNegSq (|T - p.tempOptimal| / 6) else 1/100

/-- Gaussian-shaped pH limitation factor (server.js:148-150). -/
def pHEffectOf (p : ScenarioParams) (o : Oracle) (ph : ℚ) : ℚ :=
  if 11/2 ≤ ph ∧ ph ≤ 19/2 then o.expNegSq (|ph - p.pHOptimal| / (8/10)) else 1/100

/-- Saturating nutrient limitation factor (server.js:153). -/
def nutrientEffectOf (n Ks : ℚ) : ℚ := n / (n + Ks)

/-- Density inhibition factor (server.js:156). -/
def densityInhibitionOf (Ki b : ℚ) : ℚ := Ki / (Ki + b)

/-- Oxygen limitation factor (server.js:159). -/
def oxygenEffectOf (lvl : ℚ) : ℚ := if 3 < lvl then min 1 (lvl / 6) else lvl / 3

/-- CO2 limitation factor (server.js:162). -/
def co2EffectOf (c : ℚ) : ℚ := min 1 (c / (3/100))

/-- Shorthand for the light intensity of iteration `h` (draw `r 0`). -/
def liOf (p : ScenarioParams) (o : Oracle) (r : ℕ → ℚ) (h : ℕ) : ℚ :=
  lightIntensity p o (r 0) h

/-- Shorthand for the clamped temperature of iteration `h` (draw `r 1`). -/
def tOf (p : ScenarioParams) (o : Oracle) (r : ℕ → ℚ) (h : ℕ) : ℚ :=
  currentTempOf p o (r 1) h

/-- Shorthand for the clamped pH of iteration `h` (draw `r 2`). -/
def phOf (p : ScenarioParams) (o : Oracle) (r : ℕ → ℚ) (h : ℕ) (st : CultureState) : ℚ :=
  currentpHOf p o (r 2) h st.biomass

/-- Shorthand for the updated nutrient pool of one iteration. -/
def nOf (st : CultureState) : ℚ := newNutrients st.nutrients st.biomass

/-- Shorthand for the updated dissolved oxygen of one iteration. -/
def oxOf (p : ScenarioParams) (o : Oracle) (r : ℕ → ℚ) (h : ℕ) (st : CultureState) : ℚ :=
  newOxygenLevel st.oxygenLevel (liOf p o r h) st.biomass

/-- Shorthand for the updated CO2 fraction of one iteration (draw `r 3`). -/
def cOf (p : ScenarioParams) (o : Oracle) (r : ℕ → ℚ) (h : ℕ) (st : CultureState) : ℚ :=
  newCO2Level st.co2Level (liOf p o r h) st.biomass (r 3)

/-- Specific growth rate before noise (server.js:165-166): `muMax` times the
seven multiplicative limitation factors. -/
def muOf (p : ScenarioParams) (o : Oracle) (r : ℕ → ℚ) (h : ℕ) (st : CultureState) : ℚ :=
  p.muMax * lightEffectOf (liOf p o r h) p.Ks_light * tempEffectOf p o (tOf p o r h) *
    pHEffectOf p o (phOf p o r h st) * nutrientEffectOf (nOf st) p.Ks_nutrient *
    densityInhibitionOf p.Ki_biomass st.biomass * oxygenEffectOf (oxOf p o r h st) *
    co2EffectOf (cOf p o r h st)

/-- Biological noise of one iteration (server.js:169, draw `r 4`). -/
def noiseOf (p : ScenarioParams) (r : ℕ → ℚ) : ℚ := (r 4 - 1/2) * p.noiseLevel

/-- Actual growth rate (server.js:170): noisy rate clamped below at `0`. -/
def rateOf (p : ScenarioParams) (o : Oracle) (r : ℕ → ℚ) (h : ℕ) (st : CultureState) : ℚ :=
  max 0 (muOf p o r h st + noiseOf p r)

/-- Updated biomass (server.js:175-176): discrete growth capped at the
carrying capacity `Ki_biomass`. -/
def newBiomassOf (p : ScenarioParams) (o : Oracle) (r : ℕ → ℚ) (h : ℕ) (st : CultureState) : ℚ :=
  min (st.biomass + rateOf p o r h st * st.biomass) p.Ki_biomass

/-- Instantaneous productivity in g/L/day (server.js:183), computed from the
updated biomass. -/
def instProdOf (p : ScenarioParams) (o : Oracle) (r : ℕ → ℚ) (h : ℕ) (st : CultureState) : ℚ :=
  newBiomassOf p o r h st * rateOf p o r h st * 24

/-- Running cumulative productivity (server.js:184). -/
def totalProdOf (p : ScenarioParams) (o : Oracle) (r : ℕ → ℚ) (h : ℕ) (st : CultureState) : ℚ :=
  st.totalProductivity + instProdOf p o r h st

/-- Protein content in percent dry weight (server.js:200, draw `r 8`). -/
def proteinOf (p : ScenarioParams) (r : ℕ → ℚ) (st : CultureState) : ℚ :=
  35 + 15 * nutrientEffectOf (nOf st) p.Ks_nutrient + 5 * r 8

/-- Lipid content in percent dry weight (server.js:203, draw `r 9`). -/
def lipidOf (p : ScenarioParams) (r : ℕ → ℚ) (st : CultureState) : ℚ :=
  max 5 (20 - 10 * nutrientEffectOf (nOf st) p.Ks_nutrient + 5 * r 9)

/-- Growth-phase label (server.js:212-215): the source assigns `'lag'` and
then overwrites it in order, so the last matching condition wins. -/
def growthPhaseOf (p : ScenarioParams) (o : Oracle) (r : ℕ → ℚ) (h : ℕ) (st : CultureState) :
    String :=
  if rateOf p o r h st < 5/1000 then "decline"
  else if p.Ki_biomass * (7/10) < newBiomassOf p o r h st then "stationary"
  else if p.initialBiomass * (15/10) < newBiomassOf p o r h st then "exponential"
  else "lag"

/-- One record of the generated dataset (server.js:225-295).  All numeric
fields carry the `parseFloat(x.toFixed(d))` serialization of the source;
`DateTime` is omitted because it reads the wall clock. -/
structure DataPoint where
  Scenario : ℕ
  Time_h : ℚ
  Culture_Age_h : ℚ
  Growth_Phase : String
  pH : ℚ
  Temperature_C : ℚ
  PAR_umol_m2_s : ℚ
  Dissolved_O2_mg_L : ℚ
  CO2_percent : ℚ
  Growth_Rate_mu_h : ℚ
  Specific_Growth_Rate : ℚ
  Biomass_g_L : ℚ
  Cell_Concentration_cells_mL : ℚ
  Optical_Density_680nm : ℚ
  Nutrients_g_L : ℚ
  Nutrient_Uptake_Rate : ℚ
  Instantaneous_Productivity_g_L_d : ℚ
  Cumulative_Productivity : ℚ
  Average_Productivity : ℚ
  Photosynthetic_Efficiency : ℚ
  Light_Use_Efficiency : ℚ
  Specific_Light_Uptake : ℚ
  Chlorophyll_ug_mL : ℚ
  Protein_Content_percent : ℚ
  Lipid_Content_percent : ℚ
  Carbohydrate_Content_percent : ℚ
  Thermal_Stress : ℚ
  pH_Stress : ℚ
  Nutrient_Stress : ℚ
  Light_Stress : ℚ
  Overall_Stress_Score : ℚ
  Light_Regime : LightRegime
  Stress_Condition : StressCondition
  Temp_Optimal_C : ℚ
  pH_Optimal : ℚ
  mu_Max_h : ℚ
  Light_Effect : ℚ
  Temperature_Effect : ℚ
  pH_Effect : ℚ
  Nutrient_Effect : ℚ
  Density_Effect : ℚ
  Data_Quality_Score : ℚ
  Biological_Noise_Level : ℚ
deriving DecidableEq

/-- One iteration of the hourly loop of `generateAdvancedData`
(server.js:71-298) for scenario `s` at hour `h`: the updated culture state
paired with the emitted `DataPoint`.  `r i` is the `i`-th `Math.random()`
draw of the iteration in source order (`r 0` light, `r 1` temperature,
`r 2` pH, `r 3` CO2, `r 4` noise, `r 5` cell factor, `r 6` optical density,
`r 7` chlorophyll, `r 8` protein, `r 9` lipid). -/
def step (p : ScenarioParams) (o : Oracle) (r : ℕ → ℚ) (s : ℕ) (h : ℕ) (st : CultureState) :
    CultureState × DataPoint :=
  ({ biomass := newBiomassOf p o r h st
     cellConcentration := newBiomassOf p o r h st *
       (1500000 + newBiomassOf p o r h st * 500000 + r 5 * 300000)
     currentpH := phOf p o r h st
     currentTemp := tOf p o r h
     nutrients := nOf st
     oxygenLevel := oxOf p o r h st
     co2Level := cOf p o r h st
     totalProductivity := totalProdOf p o r h st
     cumulativeBiomass := st.cumulativeBiomass + newBiomassOf p o r h st },
   { Scenario := s
     Time_h := (h : ℚ)
     Culture_Age_h := (h : ℚ)
     Growth_Phase := growthPhaseOf p o r h st
     pH := roundTo 3 (phOf p o r h st)
     Temperature_C := roundTo 2 (tOf p o r h)
     PAR_umol_m2_s := roundTo 1 (liOf p o r h)
     Dissolved_O2_mg_L := roundTo 2 (oxOf p o r h st)
     CO2_percent := roundTo 4 (cOf p o r h st)
     Growth_Rate_mu_h := roundTo 5 (rateOf p o r h st)
     Specific_Growth_Rate := roundTo 4 (rateOf p o r h st * 24)
     Biomass_g_L := roundTo 4 (newBiomassOf p o r h st)
     Cell_Concentration_cells_mL := roundTo 0 (newBiomassOf p o r h st *
       (1500000 + newBiomassOf p o r h st * 500000 + r 5 * 300000))
     Optical_Density_680nm := roundTo 3 (newBiomassOf p o r h st * (22/10 + (6/10) * r 6))
     Nutrients_g_L := roundTo 4 (nOf st)
     Nutrient_Uptake_Rate := roundTo 5 (nutrientUptakeOf st.nutrients st.biomass)
     Instantaneous_Productivity_g_L_d := roundTo 4 (instProdOf p o r h st)
     Cumulative_Productivity := roundTo 3 (totalProdOf p o r h st)
     Average_Productivity := roundTo 4 (totalProdOf p o r h st / ((h : ℚ) + 1))
     Photosynthetic_Efficiency := roundTo 6
       (if 0 < liOf p o r h then rateOf p o r h st / (liOf p o r h / 1000) else 0)
     Light_Use_Efficiency := roundTo 5
       (rateOf p o r h st / max (1/1000) (liOf p o r h / 1000))
     Specific_Light_Uptake := roundTo 2
       (if 0 < liOf p o r h then liOf p o r h / newBiomassOf p o r h st else 0)
     Chlorophyll_ug_mL := roundTo 2 (newBiomassOf p o r h st * (15 + 5 * r 7))
     Protein_Content_percent := roundTo 1 (proteinOf p r st)
     Lipid_Content_percent := roundTo 1 (lipidOf p r st)
     Carbohydrate_Content_percent := roundTo 1 (100 - proteinOf p r st - lipidOf p r st)
     Thermal_Stress :=
       if p.tempOptimal + 5 < tOf p o r h ∨ tOf p o r h < p.tempOptimal - 5 then 1 else 0
     pH_Stress := if phOf p o r h st < 65/10 ∨ 85/10 < phOf p o r h st then 1 else 0
     Nutrient_Stress := if nOf st < 2/10 then 1 else 0
     Light_Stress :=
       if liOf p o r h < 100 ∧ p.lightRegime = LightRegime.continuous then 1 else 0
     Overall_Stress_Score :=
       (if p.tempOptimal + 5 < tOf p o r h ∨ tOf p o r h < p.tempOptimal - 5 then 1 else 0) +
       (if phOf p o r h st < 65/10 ∨ 85/10 < phOf p o r h st then 1 else 0) +
       (if nOf st < 2/10 then 1 else 0) +
       (if liOf p o r h < 100 ∧ p.lightRegime = LightRegime.continuous then 1 else 0)
     Light_Regime := p.lightRegime
     Stress_Condition := p.stressCondition
     Temp_Optimal_C := roundTo 1 p.tempOptimal
     pH_Optimal := roundTo 2 p.pHOptimal
     mu_Max_h := roundTo 4 p.muMax
     Light_Effect := roundTo 4 (lightEffectOf (liOf p o r h) p.Ks_light)
     Temperature_Effect := roundTo 4 (tempEffectOf p o (tOf p o r h))
     pH_Effect := roundTo 4 (pHEffectOf p o (phOf p o r h st))
     Nutrient_Effect := roundTo 4 (nutrientEffectOf (nOf st) p.Ks_nutrient)
     Density_Effect := roundTo 4 (densityInhibitionOf p.Ki_biomass st.biomass)
     Data_Quality_Score := roundTo 3 (1 - |noiseOf p r|)
     Biological_Noise_Level := roundTo 4 |noiseOf p r| })

/-- Initial culture state of a scenario (server.js:58-69).  `r 0`, `r 1`,
`r 2` are the three `Math.random()` draws of the initialization block. -/
def initState (p : ScenarioParams) (r : ℕ → ℚ) : CultureState where
  biomass := p.initialBiomass
  cellConcentration := p.initialBiomass * (1500000 + r 0 * 1000000)
  currentpH := p.basePh
  currentTemp := p.baseTemp
  nutrients := p.nutrientLevel
  oxygenLevel := 6 + r 1 * 4
  co2Level := 2/100 + r 2 * (6/100)
  totalProductivity := 0
  cumulativeBiomass := p.initialBiomass

/-- The hourly loop of `generateAdvancedData` (server.js:71-298) for one
scenario, started at hour `h0` for `n` iterations: the list of
(post-iteration state, emitted record) pairs.  `rs h` gives the random
draws of iteration `h`. -/
def runTrace (p : ScenarioParams) (o : Oracle) (rs : ℕ → ℕ → ℚ) (s : ℕ) :
    ℕ → ℕ → CultureState → List (CultureState × DataPoint)
  | _, 0, _ => []
  | h0, n + 1, st =>
    step p o (rs h0) s h0 st :: runTrace p o rs s (h0 + 1) n (step p o (rs h0) s h0 st).1

/-- The `Math.random()` streams consumed by one scenario: `pr` for parameter
sampling, `ir` for state initialization, `sr h` for loop iteration `h`. -/
structure ScenRandoms where
  pr : ℕ → ℚ
  ir : ℕ → ℚ
  sr : ℕ → ℕ → ℚ

/-- All draws of a scenario's random streams lie in `[0, 1)`. -/
def ScenRandoms.Valid (sc : ScenRandoms) : Prop :=
  RandsValid sc.pr ∧ RandsValid sc.ir ∧ ∀ h, RandsValid (sc.sr h)

/-- The scenario parameters sampled for variability level `lvl` from the
stream `sc.pr` (server.js:31,37-56). -/
def scenarioParamsOf (lvl : String) (sc : ScenRandoms) : ScenarioParams :=
  sampleParams (variabilityConfig lvl) sc.pr

/-- The records generated for one scenario (`s` is its 1-based id):
`hours` iterations of the hourly loop from the initial state. -/
def scenarioData (o : Oracle) (lvl : String) (sc : ScenRandoms) (s hours : ℕ) :
    List DataPoint :=
  (runTrace (scenarioParamsOf lvl sc) o sc.sr s 0 hours
    (initState (scenarioParamsOf lvl sc) sc.ir)).map Prod.snd

/-- The full generator `generateAdvancedData(scenarios, hours, lvl)`
(server.js:20-302): scenarios `1 .. scenarios`, concatenated in order.
`R s` gives the random streams consumed by the scenario with 0-based
index `s`. -/
def generateAdvancedData (o : Oracle) (R : ℕ → ScenRandoms) (scenarios hours : ℕ)
    (lvl : String) : List DataPoint :=
  ((List.range scenarios).map fun s => scenarioData o lvl (R s) (s + 1) hours).flatten

/-- The ranges of the four variability presets of server.js:24-29 (every
preset, and the `medium` fallback, satisfies these bounds). -/
def CfgValid (cfg : VariabilityConfig) : Prop :=
  0 < cfg.tempRange ∧ cfg.tempRange ≤ 20 ∧ 0 < cfg.pHRange ∧ cfg.pHRange ≤ 25/10 ∧
    0 ≤ cfg.stressProb ∧ cfg.stressProb ≤ 6/10 ∧ 1/100 ≤ cfg.noiseLevel ∧
    cfg.noiseLevel ≤ 8/100

/-- The documented sampling ranges of the scenario parameters
(server.js:37-56), taking the widest variability preset. -/
structure ParamsValid (p : ScenarioParams) : Prop where
  baseTemp_mem : 15 ≤ p.baseTemp ∧ p.baseTemp < 35
  basePh_mem : 65/10 ≤ p.basePh ∧ p.basePh < 9
  maxPAR_mem : 200 ≤ p.maxPAR ∧ p.maxPAR < 1000
  initialBiomass_mem : 2/100 ≤ p.initialBiomass ∧ p.initialBiomass < 52/100
  nutrientLevel_mem : 3/10 ≤ p.nutrientLevel ∧ p.nutrientLevel < 1
  muMax_mem : 4/100 ≤ p.muMax ∧ p.muMax < 12/100
  Ks_light_mem : 100 ≤ p.Ks_light ∧ p.Ks_light < 500
  Ks_nutrient_mem : 2/100 ≤ p.Ks_nutrient ∧ p.Ks_nutrient < 17/100
  Ki_biomass_mem : 2 ≤ p.Ki_biomass ∧ p.Ki_biomass < 6
  tempOptimal_mem : 20 ≤ p.tempOptimal ∧ p.tempOptimal < 30
  pHOptimal_mem : 68/10 ≤ p.pHOptimal ∧ p.pHOptimal < 76/10
  noiseLevel_mem : 1/100 ≤ p.noiseLevel ∧ p.noiseLevel < 16/100

/-- The state invariant maintained by the hourly loop: biomass between its
initial value and the carrying capacity, dissolved gases inside their
clamps, nutrients at or above the residual floor, and a nonnegative
cumulative productivity. -/
structure StateInv (p : ScenarioParams) (st : CultureState) : Prop where
  biomass_lb : p.initialBiomass ≤ st.biomass
  biomass_ub : st.biomass ≤ p.Ki_biomass
  oxygen_mem : 2 ≤ st.oxygenLevel ∧ st.oxygenLevel ≤ 12
  co2_mem : 1/100 ≤ st.co2Level ∧ st.co2Level ≤ 1/10
  nutrients_lb : 5/100 ≤ st.nutrients
  total_nonneg : 0 ≤ st.totalProductivity

lemma variabilityConfig_valid (lvl : String) : CfgValid (variabilityConfig lvl) := by
  unfold variabilityConfig CfgValid
  split_ifs <;> norm_num

lemma rand_mul_mem {x c u : ℚ} (hx0 : 0 ≤ x) (hx1 : x < 1) (hc : 0 < c) (hcu : c ≤ u) :
    0 ≤ x * c ∧ x * c < u :=
  ⟨mul_nonneg hx0 hc.le, lt_of_lt_of_le (mul_lt_of_lt_one_left hc hx1) hcu⟩

lemma sampleParams_valid {cfg : VariabilityConfig} {r : ℕ → ℚ}
    (hcfg : CfgValid cfg) (hr : RandsValid r) : ParamsValid (sampleParams cfg r) := by
  obtain ⟨ht0, ht1, hp0, hp1, _, _, hn0, hn1⟩ := hcfg
  have h0 := rand_mul_mem (hr 0).1 (hr 0).2 ht0 ht1
  have h1 := rand_mul_mem (hr 1).1 (hr 1).2 hp0 hp1
  have h2 := rand_mul_mem (hr 2).1 (hr 2).2 (by norm_num : (0:ℚ) < 800) le_rfl
  have h3 := rand_mul_mem (hr 3).1 (hr 3).2 (by norm_num : (0:ℚ) < 1/2) le_rfl
  have h4 := rand_mul_mem (hr 4).1 (hr 4).2 (by norm_num : (0:ℚ) < 7/10) le_rfl
  have h8 := rand_mul_mem (hr 8).1 (hr 8).2 (by norm_num : (0:ℚ) < 8/100) le_rfl
  have h9 := rand_mul_mem (hr 9).1 (hr 9).2 (by norm_num : (0:ℚ) < 400) le_rfl
  have h10 := rand_mul_mem (hr 10).1 (hr 10).2 (by norm_num : (0:ℚ) < 15/100) le_rfl
  have h11 := rand_mul_mem (hr 11).1 (hr 11).2 (by norm_num : (0:ℚ) < 4) le_rfl
  have h12 := rand_mul_mem (hr 12).1 (hr 12).2 (by norm_num : (0:ℚ) < 10) le_rfl
  have h13 := rand_mul_mem (hr 13).1 (hr 13).2 (by norm_num : (0:ℚ) < 8/10) le_rfl
  have h14 := rand_mul_mem (hr 14).1 (hr 14).2
    (show (0:ℚ) < cfg.noiseLevel by linarith) le_rfl
  refine ⟨?_, ?_, ?_, ?_, ?_, ?_, ?_, ?_, ?_, ?_, ?_, ?_⟩ <;>
    simp only [sampleParams] <;> constructor <;>
      linarith [h0.1, h0.2, h1.1, h1.2, h2.1, h2.2, h3.1, h3.2, h4.1, h4.2, h8.1, h8.2,
        h9.1, h9.2, h10.1, h10.2, h11.1, h11.2, h12.1, h12.2, h13.1, h13.2, h14.1, h14.2]

lemma initState_inv {p : ScenarioParams} {r : ℕ → ℚ}
    (hp : ParamsValid p) (hr : RandsValid r) : StateInv p (initState p r) := by
  have h1 := rand_mul_mem (hr 1).1 (hr 1).2 (by norm_num : (0:ℚ) < 4) le_rfl
  have h2 := rand_mul_mem (hr 2).1 (hr 2).2 (by norm_num : (0:ℚ) < 6/100) le_rfl
  have hb := hp.initialBiomass_mem
  have hKi := hp.Ki_biomass_mem
  have hn := hp.nutrientLevel_mem
  exact ⟨le_rfl, by simp only [initState]; linarith, by constructor <;>
    simp only [initState] <;> linarith, by constructor <;>
    simp only [initState] <;> linarith, by simp only [initState]; linarith,
    by simp only [initState]; norm_num⟩

lemma round_mono_q {x y : ℚ} (h : x ≤ y) : round x ≤ round y := by
  rw [round_eq, round_eq]
  exact Int.floor_mono (by linarith)

lemma roundTo_mono {d : ℕ} {x y : ℚ} (h : x ≤ y) : roundTo d x ≤ roundTo d y := by
  have hp : (0:ℚ) < 10 ^ d := by positivity
  unfold roundTo
  have h2 : ((round (x * 10 ^ d) : ℤ) : ℚ) ≤ ((round (y * 10 ^ d) : ℤ) : ℚ) := by
    exact_mod_cast round_mono_q (mul_le_mul_of_nonneg_right h hp.le)
  exact (div_le_div_right hp).mpr h2

lemma roundTo_zero (d : ℕ) : roundTo d 0 = 0 := by
  unfold roundTo
  simp

lemma roundTo_nonneg {d : ℕ} {x : ℚ} (h : 0 ≤ x) : 0 ≤ roundTo d x := by
  have := roundTo_mono (d := d) h
  rwa [roundTo_zero] at this

lemma roundTo_le_add_half_ulp {d : ℕ} (x : ℚ) : roundTo d x ≤ x + 1 / (2 * 10 ^ d) := by
  have hp : (0:ℚ) < 10 ^ d := by positivity
  have h1 : ((round (x * 10 ^ d) : ℤ) : ℚ) ≤ x * 10 ^ d + 1 / 2 := round_le_add_half _
  unfold roundTo
  rw [div_le_iff hp]
  calc ((round (x * 10 ^ d) : ℤ) : ℚ) ≤ x * 10 ^ d + 1 / 2 := h1
    _ = (x + 1 / (2 * 10 ^ d)) * 10 ^ d := by field_simp; ring

lemma abs_roundTo_sub {d : ℕ} (x : ℚ) : |roundTo d x - x| ≤ 1 / (2 * 10 ^ d) := by
  have hp : (0:ℚ) < 10 ^ d := by positivity
  have h := abs_sub_round (x * 10 ^ d)
  rw [abs_sub_comm] at h
  have e : roundTo d x - x = (((round (x * 10 ^ d) : ℤ) : ℚ) - x * 10 ^ d) / 10 ^ d := by
    unfold roundTo
    field_simp
    ring
  rw [e, abs_div, abs_of_pos hp]
  rw [div_le_div_iff hp (by positivity)]
  calc |((round (x * 10 ^ d) : ℤ) : ℚ) - x * 10 ^ d| * (2 * 10 ^ d) ≤
      (1 / 2) * (2 * 10 ^ d) := by
        apply mul_le_mul_of_nonneg_right h
        positivity
    _ = 1 * 10 ^ d := by ring

lemma roundTo_mem {d : ℕ} {a b x : ℚ} (ha : roundTo d a = a) (hb : roundTo d b = b)
    (h1 : a ≤ x) (h2 : x ≤ b) : a ≤ roundTo d x ∧ roundTo d x ≤ b :=
  ⟨ha ▸ roundTo_mono h1, hb ▸ roundTo_mono h2⟩

lemma clamp_mem {lo hi x : ℚ} (h : lo ≤ hi) :
    lo ≤ max lo (min hi x) ∧ max lo (min hi x) ≤ hi :=
  ⟨le_max_left _ _, max_le h (min_le_left _ _)⟩

lemma ratio_mem {x y : ℚ} (hx : 0 ≤ x) (hy : 0 ≤ y) (hxy : 0 < x + y) :
    0 ≤ x / (x + y) ∧ x / (x + y) ≤ 1 :=
  ⟨div_nonneg hx hxy.le, by rw [div_le_one hxy]; linarith⟩

lemma liOf_nonneg {p : ScenarioParams} {o : Oracle} {r : ℕ → ℚ} {h : ℕ}
    (hp : ParamsValid p) (ho : OracleValid o) (hr : RandsValid r) : 0 ≤ liOf p o r h := by
  have hm := hp.maxPAR_mem
  have hr0 := hr 0
  unfold liOf lightIntensity
  split_ifs with h1 h2
  · nlinarith [hr0.1]
  · have h6 : (6:ℚ) ≤ ((h % 24 : ℕ) : ℚ) := by exact_mod_cast h2.1
    have h18 : ((h % 24 : ℕ) : ℚ) ≤ 18 := by exact_mod_cast h2.2
    have hs := ho.sinPi_nonneg ((((h % 24 : ℕ) : ℚ) - 6) / 12)
      (div_nonneg (by linarith) (by norm_num))
      (by rw [div_le_one (by norm_num)]; linarith)
    have hj : (0:ℚ) ≤ 85/100 + 3/10 * r 0 := by linarith [hr0.1]
    exact mul_nonneg (mul_nonneg (by linarith) hs) hj
  · exact le_rfl

lemma tempEffectOf_mem {p : ScenarioParams} {o : Oracle} {T : ℚ} (ho : OracleValid o) :
    0 ≤ tempEffectOf p o T ∧ tempEffectOf p o T ≤ 1 := by
  unfold tempEffectOf
  split_ifs
  · exact ho.expNegSq_bounds _
  · norm_num

lemma pHEffectOf_mem {p : ScenarioParams} {o : Oracle} {ph : ℚ} (ho : OracleValid o) :
    0 ≤ pHEffectOf p o ph ∧ pHEffectOf p o ph ≤ 1 := by
  unfold pHEffectOf
  split_ifs
  · exact ho.expNegSq_bounds _
  · norm_num

lemma oxygenEffectOf_mem {lvl : ℚ} (h2 : 2 ≤ lvl) :
    0 ≤ oxygenEffectOf lvl ∧ oxygenEffectOf lvl ≤ 1 := by
  unfold oxygenEffectOf
  split_ifs with h3
  · exact ⟨le_min (by norm_num) (div_nonneg (by linarith) (by norm_num)), min_le_left _ _⟩
  · push_neg at h3
    exact ⟨div_nonneg (by linarith) (by norm_num), by rw [div_le_one (by norm_num)]; linarith⟩

lemma co2EffectOf_mem {c : ℚ} (hc : 1/100 ≤ c) :
    0 ≤ co2EffectOf c ∧ co2EffectOf c ≤ 1 :=
  ⟨le_min (by norm_num) (div_nonneg (by linarith) (by norm_num)), min_le_left _ _⟩

lemma oxOf_mem {p : ScenarioParams} {o : Oracle} {r : ℕ → ℚ} {h : ℕ} {st : CultureState} :
    2 ≤ oxOf p o r h st ∧ oxOf p o r h st ≤ 12 := by
  unfold oxOf newOxygenLevel
  exact clamp_mem (by norm_num)

lemma cOf_mem {p : ScenarioParams} {o : Oracle} {r : ℕ → ℚ} {h : ℕ} {st : CultureState} :
    1/100 ≤ cOf p o r h st ∧ cOf p o r h st ≤ 1/10 := by
  unfold cOf newCO2Level
  exact clamp_mem (by norm_num)

lemma nOf_lb (st : CultureState) : 5/100 ≤ nOf st := le_max_left _ _

lemma phOf_mem {p : ScenarioParams} {o : Oracle} {r : ℕ → ℚ} {h : ℕ} {st : CultureState} :
    6 ≤ phOf p o r h st ∧ phOf p o r h st ≤ 9 := by
  unfold phOf currentpHOf
  exact clamp_mem (by norm_num)

lemma tOf_mem {p : ScenarioParams} {o : Oracle} {r : ℕ → ℚ} {h : ℕ} :
    15 ≤ tOf p o r h ∧ tOf p o r h ≤ 40 := by
  unfold tOf currentTempOf
  exact clamp_mem (by norm_num)

lemma mul_keep {a c f : ℚ} (h : 0 ≤ a ∧ a ≤ c) (hf : 0 ≤ f ∧ f ≤ 1) :
    0 ≤ a * f ∧ a * f ≤ c :=
  ⟨mul_nonneg h.1 hf.1, le_trans (mul_le_of_le_one_right h.1 hf.2) h.2⟩

lemma lightEffectOf_mem {p : ScenarioParams} {o : Oracle} {r : ℕ → ℚ} {h : ℕ}
    (hp : ParamsValid p) (ho : OracleValid o) (hr : RandsValid r) :
    0 ≤ lightEffectOf (liOf p o r h) p.Ks_light ∧ lightEffectOf (liOf p o r h) p.Ks_light ≤ 1 := by
  have hli := liOf_nonneg (h := h) hp ho hr
  unfold lightEffectOf
  exact ratio_mem hli (by linarith [hp.Ks_light_mem.1]) (by linarith [hp.Ks_light_mem.1])

lemma nutrientEffectOf_mem {p : ScenarioParams} {st : CultureState} (hp : ParamsValid p) :
    0 ≤ nutrientEffectOf (nOf st) p.Ks_nutrient ∧ nutrientEffectOf (nOf st) p.Ks_nutrient ≤ 1 := by
  unfold nutrientEffectOf
  exact ratio_mem (by linarith [nOf_lb st]) (by linarith [hp.Ks_nutrient_mem.1])
    (by linarith [hp.Ks_nutrient_mem.1, nOf_lb st])

lemma densityInhibitionOf_mem {p : ScenarioParams} {st : CultureState}
    (hp : ParamsValid p) (hst : StateInv p st) :
    0 ≤ densityInhibitionOf p.Ki_biomass st.biomass ∧
      densityInhibitionOf p.Ki_biomass st.biomass ≤ 1 := by
  unfold densityInhibitionOf
  have hb : 0 ≤ st.biomass := by linarith [hp.initialBiomass_mem.1, hst.biomass_lb]
  exact ratio_mem (by linarith [hp.Ki_biomass_mem.1]) hb (by linarith [hp.Ki_biomass_mem.1])

lemma muOf_mem {p : ScenarioParams} {o : Oracle} {r : ℕ → ℚ} {h : ℕ} {st : CultureState}
    (hp : ParamsValid p) (ho : OracleValid o) (hr : RandsValid r) (hst : StateInv p st) :
    0 ≤ muOf p o r h st ∧ muOf p o r h st ≤ p.muMax := by
  have hmu := hp.muMax_mem
  unfold muOf
  exact mul_keep (mul_keep (mul_keep (mul_keep (mul_keep (mul_keep (mul_keep
    ⟨by linarith, le_rfl⟩ (lightEffectOf_mem hp ho hr)) (tempEffectOf_mem ho))
    (pHEffectOf_mem ho)) (nutrientEffectOf_mem hp)) (densityInhibitionOf_mem hp hst))
    (oxygenEffectOf_mem oxOf_mem.1)) (co2EffectOf_mem cOf_mem.1)

lemma rateOf_nonneg {p : ScenarioParams} {o : Oracle} {r : ℕ → ℚ} {h : ℕ}
    {st : CultureState} : 0 ≤ rateOf p o r h st := le_max_left _ _

lemma rateOf_le {p : ScenarioParams} {o : Oracle} {r : ℕ → ℚ} {h : ℕ} {st : CultureState}
    (hp : ParamsValid p) (ho : OracleValid o) (hr : RandsValid r) (hst : StateInv p st) :
    rateOf p o r h st ≤ p.muMax + p.noiseLevel / 2 := by
  have hmu := muOf_mem (h := h) hp ho hr hst
  have hnl := hp.noiseLevel_mem
  have hr4 := hr 4
  have hnoise : noiseOf p r ≤ p.noiseLevel / 2 := by
    unfold noiseOf
    nlinarith [hr4.2, hnl.1]
  unfold rateOf
  apply max_le (by linarith)
  linarith

lemma newBiomassOf_mem {p : ScenarioParams} {o : Oracle} {r : ℕ → ℚ} {h : ℕ}
    {st : CultureState} (hp : ParamsValid p) (hst : StateInv p st) :
    p.initialBiomass ≤ newBiomassOf p o r h st ∧ newBiomassOf p o r h st ≤ p.Ki_biomass := by
  have hb0 : 0 ≤ st.biomass := by linarith [hp.initialBiomass_mem.1, hst.biomass_lb]
  have hg : 0 ≤ rateOf p o r h st * st.biomass := mul_nonneg rateOf_nonneg hb0
  unfold newBiomassOf
  constructor
  · apply le_min
    · linarith [hst.biomass_lb]
    · linarith [hp.initialBiomass_mem.2, hp.Ki_biomass_mem.1]
  · exact min_le_right _ _

lemma instProdOf_nonneg {p : ScenarioParams} {o : Oracle} {r : ℕ → ℚ} {h : ℕ}
    {st : CultureState} (hp : ParamsValid p) (hst : StateInv p st) :
    0 ≤ instProdOf p o r h st := by
  have hb := newBiomassOf_mem (o := o) (r := r) (h := h) hp hst
  have hb0 : (0:ℚ) ≤ newBiomassOf p o r h st := by linarith [hp.initialBiomass_mem.1]
  unfold instProdOf
  have := @rateOf_nonneg p o r h st
  positivity

lemma stateInv_step {p : ScenarioParams} {o : Oracle} {r : ℕ → ℚ} {s h : ℕ}
    {st : CultureState} (hp : ParamsValid p) (hst : StateInv p st) :
    StateInv p (step p o r s h st).1 := by
  refine ⟨?_, ?_, ?_, ?_, ?_, ?_⟩
  · exact (newBiomassOf_mem hp hst).1
  · exact (newBiomassOf_mem hp hst).2
  · exact oxOf_mem
  · exact cOf_mem
  · exact nOf_lb st
  · show 0 ≤ totalProdOf p o r h st
    unfold totalProdOf
    linarith [hst.total_nonneg, instProdOf_nonneg (o := o) (r := r) (h := h) hp hst]

/-- Every pair emitted by the loop satisfies any property that a single
`step` establishes from the loop invariant. -/
lemma runTrace_forall {p : ScenarioParams} {o : Oracle} {rs : ℕ → ℕ → ℚ} {s : ℕ}
    {I : CultureState → Prop} {P : CultureState × DataPoint → Prop}
    (hI : ∀ h st, I st → I (step p o (rs h) s h st).1)
    (hP : ∀ h st, I st → P (step p o (rs h) s h st)) :
    ∀ n h0 st, I st → ∀ pr ∈ runTrace p o rs s h0 n st, P pr := by
  intro n
  induction n with
  | zero =>
    intro h0 st _ pr hpr
    simp [runTrace] at hpr
  | succ m ih =>
    intro h0 st hst pr hpr
    rw [runTrace] at hpr
    rcases List.mem_cons.mp hpr with hpr | hpr
    · exact hpr ▸ hP h0 st hst
    · exact ih (h0 + 1) _ (hI h0 st hst) pr hpr

lemma runTrace_length {p : ScenarioParams} {o : Oracle} {rs : ℕ → ℕ → ℚ} {s : ℕ} :
    ∀ (n h0 : ℕ) (st : CultureState), (runTrace p o rs s h0 n st).length = n := by
  intro n
  induction n with
  | zero => intro h0 st; rfl
  | succ m ih =>
    intro h0 st
    rw [runTrace]
    simp [ih]

lemma step_time_h {p : ScenarioParams} {o : Oracle} {r : ℕ → ℚ} {s h : ℕ}
    {st : CultureState} : (step p o r s h st).2.Time_h = (h : ℚ) := rfl

lemma runTrace_map_time {p : ScenarioParams} {o : Oracle} {rs : ℕ → ℕ → ℚ} {s : ℕ} :
    ∀ (n h0 : ℕ) (st : CultureState),
      (runTrace p o rs s h0 n st).map (fun pr => pr.2.Time_h) =
        (List.range n).map (fun k => ((h0 + k : ℕ) : ℚ)) := by
  intro n
  induction n with
  | zero => intro h0 st; rfl
  | succ m ih =>
    intro h0 st
    rw [runTrace, List.range_succ_eq_map]
    simp only [List.map_cons, List.map_map, step_time_h, ih, List.cons.injEq]
    refine ⟨by norm_num, ?_⟩
    apply List.map_congr_left
    intro k _
    simp only [Function.comp_apply]
    push_cast
    ring

/-- Fuel-indexed unfolding of the loop
`for (let t = 0; t < hours; t += timeStep)` of `generateAdvancedScenarioData`
(part_000:1209-1290): the list of time values the loop body runs at.  The
loop body never writes `t`, so the visited times are independent of it. -/
def timeLoop (hours dt : ℚ) : ℕ → ℚ → List ℚ
  | 0, _ => []
  | fuel + 1, t => if t < hours then t :: timeLoop hours dt fuel (t + dt) else []

/-- The time values visited by one scenario of
`generateAdvancedScenarioData`: fuel `⌈hours / dt⌉` is exactly enough for
the loop to run to completion from `t = 0`. -/
def scenarioTimes (hours dt : ℚ) : List ℚ := timeLoop hours dt (⌈hours / dt⌉).toNat 0

lemma timeLoop_length {hours dt : ℚ} (hdt : 0 < dt) :
    ∀ (fuel : ℕ) (t : ℚ), (⌈(hours - t) / dt⌉).toNat ≤ fuel →
      (timeLoop hours dt fuel t).length = (⌈(hours - t) / dt⌉).toNat := by
  intro fuel
  induction fuel with
  | zero =>
    intro t ht
    simp only [timeLoop, List.length_nil]
    omega
  | succ m ih =>
    intro t ht
    rw [timeLoop]
    split_ifs with hlt
    · have hpos : 0 < (hours - t) / dt := div_pos (by linarith) hdt
      have hceil : 1 ≤ ⌈(hours - t) / dt⌉ := Int.ceil_pos.mpr hpos
      have hstep : (hours - (t + dt)) / dt = (hours - t) / dt - 1 := by
        rw [show hours - (t + dt) = hours - t - dt from by ring, sub_div,
          div_self hdt.ne']
      have hceil2 : ⌈(hours - (t + dt)) / dt⌉ = ⌈(hours - t) / dt⌉ - 1 := by
        rw [hstep, Int.ceil_sub_one]
      simp only [List.length_cons]
      rw [ih (t + dt) (by rw [hceil2]; omega), hceil2]
      omega
    · push_neg at hlt
      have h0 : (hours - t) / dt ≤ 0 :=
        div_nonpos_of_nonpos_of_nonneg (by linarith) hdt.le
      have : ⌈(hours - t) / dt⌉ ≤ 0 := Int.ceil_le.mpr (by exact_mod_cast h0)
      simp only [List.length_nil]
      omega

lemma scenarioTimes_length {hours dt : ℚ} (hdt : 0 < dt) :
    (scenarioTimes hours dt).length = (⌈hours / dt⌉).toNat := by
  have h := timeLoop_length hdt (⌈hours / dt⌉).toNat 0 (by rw [sub_zero])
  rw [sub_zero] at h
  exact h

lemma step_cum {p : ScenarioParams} {o : Oracle} {r : ℕ → ℚ} {s h : ℕ}
    {st : CultureState} :
    (step p o r s h st).2.Cumulative_Productivity = roundTo 3 (totalProdOf p o r h st) := rfl

lemma step_total {p : ScenarioParams} {o : Oracle} {r : ℕ → ℚ} {s h : ℕ}
    {st : CultureState} :
    (step p o r s h st).1.totalProductivity = totalProdOf p o r h st := rfl

lemma runTrace_cum_chain {p : ScenarioParams} {o : Oracle} {rs : ℕ → ℕ → ℚ} {s : ℕ}
    (hp : ParamsValid p) :
    ∀ (n h0 : ℕ) (st : CultureState), StateInv p st →
      List.Chain' (fun a b : CultureState × DataPoint =>
        a.2.Cumulative_Productivity ≤ b.2.Cumulative_Productivity)
        (runTrace p o rs s h0 n st) := by
  intro n
  induction n with
  | zero => intro h0 st _; simp [runTrace]
  | succ m ih =>
    intro h0 st hst
    rw [runTrace]
    refine List.Chain'.cons' (ih _ _ (stateInv_step hp hst)) ?_
    intro b hb
    cases m with
    | zero => simp [runTrace] at hb
    | succ k =>
      rw [runTrace] at hb
      simp only [List.head?_cons, Option.mem_def, Option.some.injEq] at hb
      subst hb
      rw [step_cum, step_cum]
      apply roundTo_mono
      have h1 : StateInv p (step p o (rs h0) s h0 st).1 := stateInv_step hp hst
      have h2 := instProdOf_nonneg (o := o) (r := rs (h0 + 1)) (h := h0 + 1) hp h1
      calc totalProdOf p o (rs h0) h0 st
          = (step p o (rs h0) s h0 st).1.totalProductivity := (step_total).symm
        _ ≤ (step p o (rs h0) s h0 st).1.totalProductivity +
            instProdOf p o (rs (h0 + 1)) (h0 + 1) (step p o (rs h0) s h0 st).1 := by
              linarith
        _ = totalProdOf p o (rs (h0 + 1)) (h0 + 1) (step p o (rs h0) s h0 st).1 := rfl

lemma roundTo_eq_self {d : ℕ} {x : ℚ} {m : ℤ} (hm : x * 10 ^ d = (m : ℚ)) :
    roundTo d x = x := by
  have hp : ((10:ℚ) ^ d) ≠ 0 := by positivity
  unfold roundTo
  rw [hm, round_intCast, ← hm, mul_div_cancel_right₀ _ hp]

lemma roundTo_one (d : ℕ) : roundTo d 1 = 1 :=
  roundTo_eq_self (m := (10:ℤ) ^ d) (by push_cast; ring)

lemma roundTo_unit_mem {d : ℕ} {x : ℚ} (h0 : 0 ≤ x) (h1 : x ≤ 1) :
    0 ≤ roundTo d x ∧ roundTo d x ≤ 1 :=
  ⟨roundTo_nonneg h0, (roundTo_one d) ▸ roundTo_mono h1⟩

lemma step_dp_pH_mem {p : ScenarioParams} {o : Oracle} {r : ℕ → ℚ} {s h : ℕ}
    {st : CultureState} :
    6 ≤ (step p o r s h st).2.pH ∧ (step p o r s h st).2.pH ≤ 9 := by
  have hm := @phOf_mem p o r h st
  exact roundTo_mem (d := 3) (roundTo_eq_self (m := 6000) (by norm_num))
    (roundTo_eq_self (m := 9000) (by norm_num)) hm.1 hm.2

lemma step_dp_temp_mem {p : ScenarioParams} {o : Oracle} {r : ℕ → ℚ} {s h : ℕ}
    {st : CultureState} :
    15 ≤ (step p o r s h st).2.Temperature_C ∧ (step p o r s h st).2.Temperature_C ≤ 40 := by
  have hm := @tOf_mem p o r h
  exact roundTo_mem (d := 2) (roundTo_eq_self (m := 1500) (by norm_num))
    (roundTo_eq_self (m := 4000) (by norm_num)) hm.1 hm.2

lemma step_dp_nutrients_lb {p : ScenarioParams} {o : Oracle} {r : ℕ → ℚ} {s h : ℕ}
    {st : CultureState} : 1/20 ≤ (step p o r s h st).2.Nutrients_g_L := by
  have h1 := nOf_lb st
  have e : roundTo 4 (1/20 : ℚ) = 1/20 := roundTo_eq_self (m := 500) (by norm_num)
  calc (1/20 : ℚ) = roundTo 4 (1/20) := e.symm
    _ ≤ roundTo 4 (nOf st) := roundTo_mono (by linarith)

lemma step_dp_rate_mem {p : ScenarioParams} {o : Oracle} {r : ℕ → ℚ} {s h : ℕ}
    {st : CultureState} (hp : ParamsValid p) (ho : OracleValid o) (hr : RandsValid r)
    (hst : StateInv p st) :
    0 ≤ (step p o r s h st).2.Growth_Rate_mu_h ∧
      (step p o r s h st).2.Growth_Rate_mu_h ≤ p.muMax + p.noiseLevel / 2 + 1/200000 := by
  constructor
  · exact roundTo_nonneg rateOf_nonneg
  · have h1 := roundTo_le_add_half_ulp (d := 5) (rateOf p o r h st)
    have h2 := rateOf_le (h := h) hp ho hr hst
    have h3 : (1 : ℚ) / (2 * 10 ^ 5) = 1/200000 := by norm_num
    calc (step p o r s h st).2.Growth_Rate_mu_h = roundTo 5 (rateOf p o r h st) := rfl
      _ ≤ rateOf p o r h st + 1 / (2 * 10 ^ 5) := h1
      _ ≤ p.muMax + p.noiseLevel / 2 + 1/200000 := by rw [h3]; linarith

lemma step_dp_effects_mem {p : ScenarioParams} {o : Oracle} {r : ℕ → ℚ} {s h : ℕ}
    {st : CultureState} (hp : ParamsValid p) (ho : OracleValid o) (hr : RandsValid r)
    (hst : StateInv p st) :
    (0 ≤ (step p o r s h st).2.Light_Effect ∧ (step p o r s h st).2.Light_Effect ≤ 1) ∧
    (0 ≤ (step p o r s h st).2.Temperature_Effect ∧
      (step p o r s h st).2.Temperature_Effect ≤ 1) ∧
    (0 ≤ (step p o r s h st).2.pH_Effect ∧ (step p o r s h st).2.pH_Effect ≤ 1) ∧
    (0 ≤ (step p o r s h st).2.Nutrient_Effect ∧ (step p o r s h st).2.Nutrient_Effect ≤ 1) ∧
    (0 ≤ (step p o r s h st).2.Density_Effect ∧ (step p o r s h st).2.Density_Effect ≤ 1) := by
  have h1 := lightEffectOf_mem (h := h) hp ho hr
  have h2 := tempEffectOf_mem (p := p) (T := tOf p o r h) ho
  have h3 := @pHEffectOf_mem p o (phOf p o r h st) ho
  have h4 := @nutrientEffectOf_mem p st hp
  have h5 := densityInhibitionOf_mem hp hst
  exact ⟨roundTo_unit_mem h1.1 h1.2, roundTo_unit_mem h2.1 h2.2, roundTo_unit_mem h3.1 h3.2,
    roundTo_unit_mem h4.1 h4.2, roundTo_unit_mem h5.1 h5.2⟩

lemma scenarioData_length {o : Oracle} {lvl : String} {sc : ScenRandoms} {s hours : ℕ} :
    (scenarioData o lvl sc s hours).length = hours := by
  unfold scenarioData
  rw [List.length_map, runTrace_length]

lemma scenarioData_map_time {o : Oracle} {lvl : String} {sc : ScenRandoms} {s hours : ℕ} :
    (scenarioData o lvl sc s hours).map DataPoint.Time_h =
      (List.range hours).map (fun k : ℕ => (k : ℚ)) := by
  unfold scenarioData
  rw [List.map_map]
  have h := @runTrace_map_time (scenarioParamsOf lvl sc) o sc.sr s
    hours 0 (initState (scenarioParamsOf lvl sc) sc.ir)
  rw [show (DataPoint.Time_h ∘ Prod.snd : CultureState × DataPoint → ℚ) =
    (fun pr => pr.2.Time_h) from rfl, h]
  apply List.map_congr_left
  intro k _
  norm_num

/-- Light cycle of `generateRealisticData` (part_003:104-116): a 16:8
day/night cycle with daylight for hour-of-day in `[6, 22)`, followed by the
clamp to `[0, 400]`.  Only the fields read by this computation (`maxPAR`
and the light regime) are passed explicitly. -/
def realisticLightIntensity (maxPAR : ℚ) (lr : LightRegime) (o : Oracle) (rl : ℚ)
    (h : ℕ) : ℚ :=
  max 0 (min 400
    (if lr = LightRegime.continuous then maxPAR * (9/10 + (2/10) * rl)
     else if 6 ≤ h % 24 ∧ h % 24 < 22 then
       maxPAR * o.sinPi ((((h % 24 : ℕ) : ℚ) - 6) / 16) * (8/10 + (4/10) * rl)
     else 0))

/-- JS `str.split(sep)` on a character list: the empty string gives one
empty piece, and a trailing separator yields a trailing empty piece. -/
def splitSep (sep : Char) : List Char → List (List Char)
  | [] => [[]]
  | c :: cs =>
    match splitSep sep cs with
    | [] => [[]]
    | r :: rs => if c = sep then [] :: r :: rs else (c :: r) :: rs

/-- JS `Array.prototype.join(sep)` on a list of character lists. -/
def joinSep (sep : Char) : List (List Char) → List Char
  | [] => []
  | [x] => x
  | x :: y :: xs => x ++ sep :: joinSep sep (y :: xs)

/-- Models `line.trim() !== ''`: some character is not whitespace. -/
def nonBlank (l : List Char) : Bool := l.any fun c => !c.isWhitespace

/-- The CSV writer `toCSV` (server.js:305-316): a header row made of the
(uniform) keys of the records, then one comma-joined row of values per
record, joined with newlines; empty input serializes to the empty string.
Strings are modelled as character lists and every record is a list of
serialized cell values in header order. -/
def toCSV (header : List (List Char)) (rows : List (List (List Char))) : List Char :=
  if rows = [] then [] else joinSep '\n' (joinSep ',' header :: rows.map (joinSep ','))

/-- The `/sample-data/:folder` reader (server.js:454-472): split the file
into lines, drop blank ones, split the first line into the headers, and
take up to the first 1000 remaining lines as records, splitting each at
commas. -/
def csvSampleRows (csv : List Char) : List (List Char) × List (List (List Char)) :=
  ((splitSep ',' ((splitSep '\n' csv).filter nonBlank).headI),
    ((((splitSep '\n' csv).filter nonBlank).drop 1).take 1000).map (splitSep ','))

/-- A serialized cell value that survives the naive line/comma split:
free of commas and newlines, with at least one non-whitespace character. -/
def GoodCell (cell : List Char) : Prop :=
  ',' ∉ cell ∧ '\n' ∉ cell ∧ cell.any (fun c => !c.isWhitespace) = true

instance : DecidablePred GoodCell := fun cell => by
  unfold GoodCell
  infer_instance

lemma splitSep_ne_nil (sep : Char) : ∀ l, splitSep sep l ≠ [] := by
  intro l
  induction l with
  | nil => simp [splitSep]
  | cons c cs ih =>
    rw [splitSep]
    rcases hs : splitSep sep cs with _ | ⟨r, rs⟩
    · simp
    · split_ifs <;> simp

lemma splitSep_no_sep {sep : Char} : ∀ {x : List Char}, sep ∉ x → splitSep sep x = [x] := by
  intro x
  induction x with
  | nil => intro _; rfl
  | cons c cs ih =>
    intro hmem
    have hc : ¬c = sep := fun h => hmem (h ▸ List.mem_cons_self c cs)
    have hcs : sep ∉ cs := fun h => hmem (List.mem_cons_of_mem c h)
    rw [splitSep, ih hcs]
    simp [hc]

lemma splitSep_append {sep : Char} :
    ∀ {x t : List Char}, sep ∉ x → splitSep sep (x ++ sep :: t) = x :: splitSep sep t := by
  intro x
  induction x with
  | nil =>
    intro t _
    rw [List.nil_append, splitSep]
    rcases hs : splitSep sep t with _ | ⟨r, rs⟩
    · exact absurd hs (splitSep_ne_nil sep t)
    · simp
  | cons c cs ih =>
    intro t hmem
    have hc : ¬c = sep := fun h => hmem (h ▸ List.mem_cons_self c cs)
    have hcs : sep ∉ cs := fun h => hmem (List.mem_cons_of_mem c h)
    rw [List.cons_append, splitSep, ih hcs]
    simp [hc]

lemma splitSep_joinSep {sep : Char} :
    ∀ {xss : List (List Char)}, xss ≠ [] → (∀ x ∈ xss, sep ∉ x) →
      splitSep sep (joinSep sep xss) = xss := by
  intro xss
  induction xss with
  | nil => intro h _; exact absurd rfl h
  | cons x ys ih =>
    intro _ hmem
    cases ys with
    | nil =>
      rw [joinSep]
      exact splitSep_no_sep (hmem x (List.mem_cons_self x []))
    | cons y zs =>
      rw [joinSep, splitSep_append (hmem x (List.mem_cons_self x (y :: zs)))]
      rw [ih (by simp) (fun z hz => hmem z (List.mem_cons_of_mem x hz))]

lemma mem_joinSep {sep c : Char} :
    ∀ {xss : List (List Char)}, c ∈ joinSep sep xss → c = sep ∨ ∃ x ∈ xss, c ∈ x := by
  intro xss
  induction xss with
  | nil => intro h; simp [joinSep] at h
  | cons x ys ih =>
    cases ys with
    | nil =>
      intro h
      rw [joinSep] at h
      exact Or.inr ⟨x, List.mem_cons_self x [], h⟩
    | cons y zs =>
      intro h
      rw [joinSep] at h
      rcases List.mem_append.mp h with h | h
      · exact Or.inr ⟨x, List.mem_cons_self x (y :: zs), h⟩
      · rcases List.mem_cons.mp h with h | h
        · exact Or.inl h
        · rcases ih h with h | ⟨z, hz, hcz⟩
          · exact Or.inl h
          · exact Or.inr ⟨z, List.mem_cons_of_mem x hz, hcz⟩

lemma joinSep_any {sep : Char} {P : Char → Bool} :
    ∀ {xss : List (List Char)} {x : List Char}, x ∈ xss → x.any P = true →
      (joinSep sep xss).any P = true := by
  intro xss
  induction xss with
  | nil => intro x hx; simp at hx
  | cons w ys ih =>
    intro x hx hP
    cases ys with
    | nil =>
      rcases List.mem_cons.mp hx with h | h
      · rw [joinSep]; exact h ▸ hP
      · simp at h
    | cons y zs =>
      rw [joinSep, List.any_append]
      rcases List.mem_cons.mp hx with h | h
      · rw [h] at hP
        simp [hP]
      · have := ih h hP
        simp [this]

/-- Round trip of the CSV writer through the `/sample-data` reader: for a
nonempty uniformly-keyed table of at most 1000 rows whose serialized cells
are comma- and newline-free and not blank, parsing reproduces the header
and every row exactly. -/
lemma csvSampleRows_toCSV {header : List (List Char)} {rows : List (List (List Char))}
    (hh : header ≠ []) (hrows : rows ≠ []) (hlen : rows.length ≤ 1000)
    (hgh : ∀ c ∈ header, GoodCell c)
    (hu : ∀ row ∈ rows, row.length = header.length)
    (hgr : ∀ row ∈ rows, ∀ c ∈ row, GoodCell c) :
    csvSampleRows (toCSV header rows) = (header, rows) := by
  have hrow_ne : ∀ row ∈ rows, row ≠ [] := by
    intro row hr
    have := hu row hr
    intro hnil
    rw [hnil] at this
    exact hh (List.length_eq_zero.mp this.symm)
  have hline_no_nl : ∀ line ∈ joinSep ',' header :: rows.map (joinSep ','),
      ('\n' : Char) ∉ line := by
    intro line hl hmem
    rcases List.mem_cons.mp hl with hl | hl
    · subst hl
      rcases mem_joinSep hmem with hc | ⟨c, hc, hcc⟩
      · exact absurd hc (by decide)
      · exact (hgh c hc).2.1 hcc
    · obtain ⟨row, hr, rfl⟩ := List.mem_map.mp hl
      rcases mem_joinSep hmem with hc | ⟨c, hc, hcc⟩
      · exact absurd hc (by decide)
      · exact (hgr row hr c hc).2.1 hcc
  have hline_blank : ∀ line ∈ joinSep ',' header :: rows.map (joinSep ','),
      nonBlank line = true := by
    intro line hl
    rcases List.mem_cons.mp hl with hl | hl
    · subst hl
      obtain ⟨c, hch⟩ := List.exists_mem_of_ne_nil header hh
      exact joinSep_any hch (hgh c hch).2.2
    · obtain ⟨row, hr, rfl⟩ := List.mem_map.mp hl
      obtain ⟨c, hch⟩ := List.exists_mem_of_ne_nil row (hrow_ne row hr)
      exact joinSep_any hch (hgr row hr c hch).2.2
  have h1 : splitSep '\n' (toCSV header rows) = joinSep ',' header :: rows.map (joinSep ',') := by
    rw [toCSV, if_neg hrows]
    exact splitSep_joinSep (by simp) hline_no_nl
  have hsplit_row : ∀ row ∈ rows, splitSep ',' (joinSep ',' row) = row := by
    intro row hr
    exact splitSep_joinSep (hrow_ne row hr) (fun c hc => (hgr row hr c hc).1)
  unfold csvSampleRows
  rw [h1, List.filter_eq_self.mpr hline_blank]
  simp only [List.headI_cons, List.drop_one, List.tail_cons]
  rw [List.take_of_length_le (by rw [List.length_map]; exact hlen)]
  rw [splitSep_joinSep hh (fun c hc => (hgh c hc).1), List.map_map]
  congr 1
  calc rows.map (splitSep ',' ∘ joinSep ',') = rows.map id := by
        apply List.map_congr_left
        intro row hr
        exact hsplit_row row hr
    _ = rows := List.map_id rows

/-- The 70/15/15 dataset split (server.js:370-376): `slice(0, t)`,
`slice(t, t + v)` and `slice(t + v)` of the shuffled data, with
`t = Math.floor(0.7 * n)` and `v = Math.floor(0.15 * n)`. -/
def splitDataset {α : Type*} (xs : List α) : List α × List α × List α :=
  (xs.take ⌊(xs.length : ℚ) * (7/10)⌋₊,
   (xs.drop ⌊(xs.length : ℚ) * (7/10)⌋₊).take ⌊(xs.length : ℚ) * (15/100)⌋₊,
   xs.drop (⌊(xs.length : ℚ) * (7/10)⌋₊ + ⌊(xs.length : ℚ) * (15/100)⌋₊))

lemma trainSize_eq (n : ℕ) : ⌊(n : ℚ) * (7/10)⌋₊ = 7 * n / 10 := by
  rw [show (n : ℚ) * (7/10) = ((7 * n : ℕ) : ℚ) / ((10 : ℕ) : ℚ) by push_cast; ring]
  exact Nat.floor_div_eq_div (7 * n) 10

lemma validSize_eq (n : ℕ) : ⌊(n : ℚ) * (15/100)⌋₊ = 15 * n / 100 := by
  rw [show (n : ℚ) * (15/100) = ((15 * n : ℕ) : ℚ) / ((100 : ℕ) : ℚ) by push_cast; ring]
  exact Nat.floor_div_eq_div (15 * n) 100

/-- The JSON request of `/generate-dataset` (server.js:340), after the
defaulting of absent fields; the spec types the numeric fields as ints. -/
structure GenRequest where
  scenarios : ℤ
  hoursPerScenario : ℤ
  variabilityLevel : String

/-- A filesystem operation performed by the handler. -/
inductive FsEffect
  | mkdirEffect (dir : String)
  | writeEffect (file : String)
deriving DecidableEq

/-- The observable outcome of one `/generate-dataset` request: HTTP status,
the `success` flag, the generated records the response was built from, and
the filesystem operations performed, in order. -/
structure HandlerResult where
  status : ℕ
  success : Bool
  points : List DataPoint
  effects : List FsEffect

/-- The variability levels accepted by the handler (server.js:357). -/
def validVariabilityLevels : List String := ["low", "medium", "high", "extreme"]

/-- A request parameter is out of range (server.js:343-363). -/
def InvalidRequest (rq : GenRequest) : Prop :=
  rq.scenarios < 1 ∨ 100 < rq.scenarios ∨ rq.hoursPerScenario < 24 ∨
    480 < rq.hoursPerScenario ∨ ¬rq.variabilityLevel ∈ validVariabilityLevels

/-- The `/generate-dataset` handler (server.js:338-440): the three
validations answer 400 before the generator runs and before the output
directory is created; otherwise the data is generated, the directory is
created and the four CSV files are written.  `writeOk` abstracts whether
the `writeFileSync` calls succeed; when they fail the handler answers 500
with the directory already created. -/
def generateDatasetHandler (o : Oracle) (R : ℕ → ScenRandoms) (rq : GenRequest)
    (writeOk : Bool) : HandlerResult :=
  if rq.scenarios < 1 ∨ 100 < rq.scenarios then
    { status := 400, success := false, points := [], effects := [] }
  else if rq.hoursPerScenario < 24 ∨ 480 < rq.hoursPerScenario then
    { status := 400, success := false, points := [], effects := [] }
  else if ¬rq.variabilityLevel ∈ validVariabilityLevels then
    { status := 400, success := false, points := [], effects := [] }
  else if writeOk then
    { status := 200, success := true,
      points := generateAdvancedData o R rq.scenarios.toNat rq.hoursPerScenario.toNat
        rq.variabilityLevel,
      effects := [FsEffect.mkdirEffect "generated_datasets/<timestamp>",
        FsEffect.writeEffect "complete_dataset.csv",
        FsEffect.writeEffect "training_data.csv",
        FsEffect.writeEffect "validation_data.csv",
        FsEffect.writeEffect "test_data.csv"] }
  else
    { status := 500, success := false, points := [],
      effects := [FsEffect.mkdirEffect "generated_datasets/<timestamp>"] }

/-- A transcendental oracle whose values are exact at the arguments the
witnesses consult it on: `sin 0 = 0`, `sin (x π) = 0` and
`exp (-(0 ^ 2)) = 1`. -/
def zeroOracle : Oracle := ⟨fun _ => 0, fun _ => 0, fun _ => 1⟩

lemma zeroOracle_valid : OracleValid zeroOracle := by
  refine ⟨?_, ?_, ?_, ?_⟩ <;> intros <;> norm_num [zeroOracle]

/-- Random streams that always draw `1/2`. -/
def halfScen : ScenRandoms := ⟨fun _ => 1/2, fun _ => 1/2, fun _ _ => 1/2⟩

lemma halfScen_valid : halfScen.Valid := by
  refine ⟨?_, ?_, fun h => ?_⟩ <;> intro i <;> constructor <;> norm_num [halfScen]

/-- Random streams that always draw `0` (the sampled light regime is then
`cyclic`, since `Math.random() > 0.3` fails). -/
def zScen : ScenRandoms := ⟨fun _ => 0, fun _ => 0, fun _ _ => 0⟩

lemma zScen_valid : zScen.Valid := by
  refine ⟨?_, ?_, fun h => ?_⟩ <;> intro i <;> constructor <;> norm_num [zScen]

/-- The single record of the one-scenario, one-hour run driven by
`zeroOracle` and `halfScen`. -/
def dpSample : DataPoint :=
  (step (scenarioParamsOf "medium" halfScen) zeroOracle (halfScen.sr 0) 1 0
    (initState (scenarioParamsOf "medium" halfScen) halfScen.ir)).2

lemma dpSample_mem : dpSample ∈ scenarioData zeroOracle "medium" halfScen 1 1 := by
  show dpSample ∈ (runTrace (scenarioParamsOf "medium" halfScen) zeroOracle halfScen.sr 1 0 1
    (initState (scenarioParamsOf "medium" halfScen) halfScen.ir)).map Prod.snd
  rw [runTrace, runTrace]
  exact List.mem_singleton.mpr rfl

lemma cfg_medium : variabilityConfig "medium" = ⟨10, 12/10, 2/10, 3/100⟩ := rfl

lemma range_one_eq : List.range 1 = [0] := rfl

/-- Parameter-sampling draws that make the `medium`-variability scenario
land exactly on `baseTemp = tempOptimal = 20`, `basePh = pHOptimal = 7.1`,
`maxPAR = 400`, `initialBiomass = 0.1`, `nutrientLevel = 0.5`,
`muMax = 0.08`, `Ks_light = 200`, `Ks_nutrient = 0.1`, `Ki_biomass = 3`,
continuous light and no stress. -/
def cPr : ℕ → ℚ := fun i =>
  if i = 2 then 1/4 else if i = 3 then 4/25 else if i = 4 then 2/7 else
  if i = 6 then 0 else if i = 7 then 0 else if i = 9 then 1/4 else
  if i = 10 then 8/15 else if i = 11 then 1/4 else if i = 12 then 0 else
  if i = 13 then 3/8 else 1/2

/-- Loop draws that put the protein draw at `1361/206000` and the lipid
draw at `1263/103000`, so that the unrounded protein and lipid percentages
are exactly `47.53` and `11.73`. -/
def cSr : ℕ → ℕ → ℚ := fun _ i =>
  if i = 8 then 1361/206000 else if i = 9 then 1263/103000 else 1/2

def cScen : ScenRandoms := ⟨cPr, fun _ => 1/2, cSr⟩

lemma cScen_valid : cScen.Valid := by
  refine ⟨fun i => ?_, fun i => ?_, fun h i => ?_⟩
  · show 0 ≤ cPr i ∧ cPr i < 1
    unfold cPr
    split_ifs <;> norm_num
  · show (0:ℚ) ≤ 1/2 ∧ (1/2:ℚ) < 1
    norm_num
  · show 0 ≤ cSr h i ∧ cSr h i < 1
    unfold cSr
    split_ifs <;> norm_num

/-- An oracle whose `sinPi` value at `13/16` is the rational `5/9`, a close
stand-in for the true `sin (13π/16) ≈ 0.5556`; any positive valid value
there produces nonzero light at hour-of-day 19-21 in part_003's cycle. -/
def c4Oracle : Oracle :=
  ⟨fun _ => 0, fun x => if x = 13/16 then 5/9 else 0, fun _ => 1⟩

lemma c4Oracle_valid : OracleValid c4Oracle := by
  refine ⟨fun x => by norm_num [c4Oracle], fun x => ?_, fun x hx0 hx1 => ?_,
    fun x => by norm_num [c4Oracle]⟩
  · simp only [c4Oracle]
    split_ifs <;> norm_num
  · simp only [c4Oracle]
    split_ifs <;> norm_num

/-- C1: for every scenario and every duration `hours ≥ 1`, the hourly loop
of `generateAdvancedData` produces exactly `hours = ⌈hours / 1⌉`
DataPoints for that scenario, whose `Time_h` values are exactly
`0, 1, ..., hours - 1` in order (hence strictly increasing); and the
fractional-step loop of `generateAdvancedScenarioData`
(`for (t = 0; t < hours; t += timeStep)`) visits exactly
`⌈hours / timeStep⌉` time values. -/
theorem C1_point_count (o : Oracle) (lvl : String) (sc : ScenRandoms) (s hours : ℕ)
    (hh : 1 ≤ hours) (hq dt : ℚ) (hq1 : 1 ≤ hq) (hdt : 0 < dt) :
    (scenarioData o lvl sc s hours).length = hours ∧
    (scenarioData o lvl sc s hours).map DataPoint.Time_h =
      (List.range hours).map (fun k : ℕ => (k : ℚ)) ∧
    (scenarioTimes hq dt).length = (⌈hq / dt⌉).toNat :=
  ⟨scenarioData_length, scenarioData_map_time, scenarioTimes_length hdt⟩

theorem C1_point_count_witness :
    (scenarioData zeroOracle "medium" halfScen 1 24).length = 24 ∧
    (scenarioTimes 24 1).length = 24 := by
  have h := C1_point_count zeroOracle "medium" halfScen 1 24 (by norm_num) 24 1
    (by norm_num) (by norm_num)
  refine ⟨h.1, ?_⟩
  have h3 := h.2.2
  norm_num at h3
  exact h3

/-- C2: each iteration of the hourly loop preserves the culture-state
invariant (biomass between its initial value and the carrying capacity
`Ki_biomass`, gases inside their clamps, nutrients at or above the `0.05`
floor), so along any generated scenario every state has
`initialBiomass ≤ biomass ≤ Ki_biomass` and every emitted DataPoint has
pH in `[6.0, 9.5]`, temperature in `[15, 40]` and nutrients at or above
the positive floor `0.05` (the serialized `Biomass_g_L` field is the
4-decimal rounding of the state biomass). -/
theorem C2_state_invariant (o : Oracle) (lvl : String) (sc : ScenRandoms)
    (s hours h : ℕ) (st : CultureState) (ho : OracleValid o) (hsc : sc.Valid)
    (hst : StateInv (scenarioParamsOf lvl sc) st) :
    StateInv (scenarioParamsOf lvl sc)
      (step (scenarioParamsOf lvl sc) o (sc.sr h) s h st).1 ∧
    ∀ pr ∈ runTrace (scenarioParamsOf lvl sc) o sc.sr s 0 hours
        (initState (scenarioParamsOf lvl sc) sc.ir),
      ((scenarioParamsOf lvl sc).initialBiomass ≤ pr.1.biomass ∧
        pr.1.biomass ≤ (scenarioParamsOf lvl sc).Ki_biomass) ∧
      (6 ≤ pr.2.pH ∧ pr.2.pH ≤ 19/2) ∧
      (15 ≤ pr.2.Temperature_C ∧ pr.2.Temperature_C ≤ 40) ∧
      1/20 ≤ pr.2.Nutrients_g_L := by
  have hp : ParamsValid (scenarioParamsOf lvl sc) :=
    sampleParams_valid (variabilityConfig_valid lvl) hsc.1
  refine ⟨stateInv_step hp hst, ?_⟩
  exact runTrace_forall (I := StateInv (scenarioParamsOf lvl sc))
    (P := fun pr => ((scenarioParamsOf lvl sc).initialBiomass ≤ pr.1.biomass ∧
        pr.1.biomass ≤ (scenarioParamsOf lvl sc).Ki_biomass) ∧
      (6 ≤ pr.2.pH ∧ pr.2.pH ≤ 19/2) ∧
      (15 ≤ pr.2.Temperature_C ∧ pr.2.Temperature_C ≤ 40) ∧
      1/20 ≤ pr.2.Nutrients_g_L)
    (fun h' st' hst' => stateInv_step hp hst')
    (fun h' st' hst' => by
      have hnew := stateInv_step (o := o) (r := sc.sr h') (s := s) (h := h') hp hst'
      refine ⟨⟨hnew.biomass_lb, hnew.biomass_ub⟩, ?_, step_dp_temp_mem,
        step_dp_nutrients_lb⟩
      have hph := @step_dp_pH_mem (scenarioParamsOf lvl sc) o (sc.sr h') s h' st'
      exact ⟨hph.1, by linarith [hph.2]⟩)
    hours 0 _ (initState_inv hp hsc.2.1)

theorem C2_state_invariant_witness :
    StateInv (scenarioParamsOf "medium" halfScen)
      (step (scenarioParamsOf "medium" halfScen) zeroOracle (halfScen.sr 0) 1 0
        (initState (scenarioParamsOf "medium" halfScen) halfScen.ir)).1 :=
  (C2_state_invariant zeroOracle "medium" halfScen 1 1 0
    (initState (scenarioParamsOf "medium" halfScen) halfScen.ir) zeroOracle_valid
    halfScen_valid
    (initState_inv (sampleParams_valid (variabilityConfig_valid "medium")
      halfScen_valid.1) halfScen_valid.2.1)).1

/-- C3: every generated DataPoint of a scenario has a recorded specific
growth rate between `0` and `muMax + noiseLevel / 2` (plus the half-ulp
`1/200000` of its 5-decimal serialization): the rate is `muMax` times the
product of limitation factors, each of which lies in `[0, 1]` (shown here
on the five recorded effect fields), plus the zero-mean noise bounded by
`noiseLevel / 2`, clamped below at `0`. -/
theorem C3_growth_rate_bounds (o : Oracle) (lvl : String) (sc : ScenRandoms)
    (s hours : ℕ) (ho : OracleValid o) (hsc : sc.Valid) :
    ∀ dp ∈ scenarioData o lvl sc s hours,
      0 ≤ dp.Growth_Rate_mu_h ∧
      dp.Growth_Rate_mu_h ≤ (scenarioParamsOf lvl sc).muMax +
        (scenarioParamsOf lvl sc).noiseLevel / 2 + 1/200000 ∧
      (0 ≤ dp.Light_Effect ∧ dp.Light_Effect ≤ 1) ∧
      (0 ≤ dp.Temperature_Effect ∧ dp.Temperature_Effect ≤ 1) ∧
      (0 ≤ dp.pH_Effect ∧ dp.pH_Effect ≤ 1) ∧
      (0 ≤ dp.Nutrient_Effect ∧ dp.Nutrient_Effect ≤ 1) ∧
      (0 ≤ dp.Density_Effect ∧ dp.Density_Effect ≤ 1) := by
  have hp : ParamsValid (scenarioParamsOf lvl sc) :=
    sampleParams_valid (variabilityConfig_valid lvl) hsc.1
  intro dp hdp
  obtain ⟨pr, hpr, rfl⟩ := List.mem_map.mp hdp
  exact runTrace_forall (I := StateInv (scenarioParamsOf lvl sc))
    (P := fun pr => 0 ≤ pr.2.Growth_Rate_mu_h ∧
      pr.2.Growth_Rate_mu_h ≤ (scenarioParamsOf lvl sc).muMax +
        (scenarioParamsOf lvl sc).noiseLevel / 2 + 1/200000 ∧
      (0 ≤ pr.2.Light_Effect ∧ pr.2.Light_Effect ≤ 1) ∧
      (0 ≤ pr.2.Temperature_Effect ∧ pr.2.Temperature_Effect ≤ 1) ∧
      (0 ≤ pr.2.pH_Effect ∧ pr.2.pH_Effect ≤ 1) ∧
      (0 ≤ pr.2.Nutrient_Effect ∧ pr.2.Nutrient_Effect ≤ 1) ∧
      (0 ≤ pr.2.Density_Effect ∧ pr.2.Density_Effect ≤ 1))
    (fun h' st' hst' => stateInv_step hp hst')
    (fun h' st' hst' => by
      have h1 := step_dp_rate_mem (s := s) (h := h') hp ho (hsc.2.2 h') hst'
      have h2 := step_dp_effects_mem (s := s) (h := h') hp ho (hsc.2.2 h') hst'
      exact ⟨h1.1, h1.2, h2.1, h2.2.1, h2.2.2.1, h2.2.2.2.1, h2.2.2.2.2⟩)
    hours 0 _ (initState_inv hp hsc.2.1) pr hpr

theorem C3_growth_rate_bounds_witness :
    0 ≤ dpSample.Growth_Rate_mu_h ∧
    dpSample.Growth_Rate_mu_h ≤ (scenarioParamsOf "medium" halfScen).muMax +
      (scenarioParamsOf "medium" halfScen).noiseLevel / 2 + 1/200000 := by
  have h := C3_growth_rate_bounds zeroOracle "medium" halfScen 1 1 zeroOracle_valid
    halfScen_valid dpSample dpSample_mem
  exact ⟨h.1, h.2.1⟩

/-- C6: within one scenario the recorded `Cumulative_Productivity` is
monotonically non-decreasing across consecutive time steps, because each
instantaneous productivity term added to the running total (and its
recorded serialization) is nonnegative. -/
theorem C6_cumulative_monotone (o : Oracle) (lvl : String) (sc : ScenRandoms)
    (s hours : ℕ) (ho : OracleValid o) (hsc : sc.Valid) :
    List.Chain' (fun a b : DataPoint =>
      a.Cumulative_Productivity ≤ b.Cumulative_Productivity)
      (scenarioData o lvl sc s hours) ∧
    ∀ dp ∈ scenarioData o lvl sc s hours,
      0 ≤ dp.Instantaneous_Productivity_g_L_d := by
  have hp : ParamsValid (scenarioParamsOf lvl sc) :=
    sampleParams_valid (variabilityConfig_valid lvl) hsc.1
  constructor
  · unfold scenarioData
    rw [List.chain'_map]
    exact runTrace_cum_chain hp hours 0 _ (initState_inv hp hsc.2.1)
  · intro dp hdp
    obtain ⟨pr, hpr, rfl⟩ := List.mem_map.mp hdp
    exact runTrace_forall (I := StateInv (scenarioParamsOf lvl sc))
      (P := fun pr => 0 ≤ pr.2.Instantaneous_Productivity_g_L_d)
      (fun h' st' hst' => stateInv_step hp hst')
      (fun h' st' hst' => roundTo_nonneg (instProdOf_nonneg hp hst'))
      hours 0 _ (initState_inv hp hsc.2.1) pr hpr

theorem C6_cumulative_monotone_witness :
    List.Chain' (fun a b : DataPoint =>
      a.Cumulative_Productivity ≤ b.Cumulative_Productivity)
      (scenarioData zeroOracle "medium" halfScen 1 48) ∧
    0 ≤ dpSample.Instantaneous_Productivity_g_L_d :=
  ⟨(C6_cumulative_monotone zeroOracle "medium" halfScen 1 48 zeroOracle_valid
      halfScen_valid).1,
   (C6_cumulative_monotone zeroOracle "medium" halfScen 1 1 zeroOracle_valid
      halfScen_valid).2 dpSample dpSample_mem⟩

/-- C10: the per-step pH update clamps to the upper bound 9.0 (not 9.5):
the updated state pH always lies in `[6.0, 9.0]`, and therefore every
generated DataPoint's `pH` field lies in `[6.0, 9.0]` — strictly tighter
than the spec's `[6.0, 9.5]` — so pH 9.0 is never exceeded. -/
theorem C10_pH_cap (o : Oracle) (lvl : String) (sc : ScenRandoms) (s hours h : ℕ)
    (st : CultureState) :
    (6 ≤ (step (scenarioParamsOf lvl sc) o (sc.sr h) s h st).1.currentpH ∧
      (step (scenarioParamsOf lvl sc) o (sc.sr h) s h st).1.currentpH ≤ 9) ∧
    ∀ dp ∈ scenarioData o lvl sc s hours, 6 ≤ dp.pH ∧ dp.pH ≤ 9 := by
  constructor
  · exact @phOf_mem (scenarioParamsOf lvl sc) o (sc.sr h) h st
  · intro dp hdp
    obtain ⟨pr, hpr, rfl⟩ := List.mem_map.mp hdp
    exact runTrace_forall (I := fun _ => True)
      (P := fun pr => 6 ≤ pr.2.pH ∧ pr.2.pH ≤ 9)
      (fun _ _ _ => trivial) (fun h' st' _ => step_dp_pH_mem)
      hours 0 _ trivial pr hpr

theorem C10_pH_cap_witness : 6 ≤ dpSample.pH ∧ dpSample.pH ≤ 9 :=
  (C10_pH_cap zeroOracle "medium" halfScen 1 1 0
    (initState (scenarioParamsOf "medium" halfScen) halfScen.ir)).2
    dpSample dpSample_mem

/-- C4 (amended): in `generateAdvancedData` (server.js) the cyclic light
regime is dark exactly outside hour-of-day `[6, 18]`: the computed light
intensity, and the recorded `PAR_umol_m2_s` of every generated DataPoint,
are exactly `0` there.  In `generateRealisticData` (part_003) the cycle is
16:8 instead, with darkness exactly outside hour-of-day `[6, 22)` — at
hours 19-21 its PAR is in general nonzero, which is where the original
claim fails. -/
theorem C4_darkness_zero_PAR (p : ScenarioParams) (o : Oracle) (rl : ℚ) (h : ℕ)
    (o2 : Oracle) (lvl : String) (sc : ScenRandoms) (s hours : ℕ)
    (maxPAR rl2 : ℚ) (h2 : ℕ) :
    (p.lightRegime = LightRegime.cyclic → (h % 24 < 6 ∨ 18 < h % 24) →
      lightIntensity p o rl h = 0) ∧
    (∀ dp ∈ scenarioData o2 lvl sc s hours, dp.Light_Regime = LightRegime.cyclic →
      ∀ hh : ℕ, dp.Time_h = (hh : ℚ) → (hh % 24 < 6 ∨ 18 < hh % 24) →
        dp.PAR_umol_m2_s = 0) ∧
    ((h2 % 24 < 6 ∨ 22 ≤ h2 % 24) →
      realisticLightIntensity maxPAR LightRegime.cyclic o rl2 h2 = 0) := by
  refine ⟨?_, ?_, ?_⟩
  · intro hcyc hdark
    unfold lightIntensity
    rw [if_neg (by rw [hcyc]; exact fun hcon => LightRegime.noConfusion hcon),
      if_neg (by omega)]
  · intro dp hdp
    obtain ⟨pr, hpr, rfl⟩ := List.mem_map.mp hdp
    refine runTrace_forall (I := fun _ => True)
      (P := fun pr => pr.2.Light_Regime = LightRegime.cyclic →
        ∀ hh : ℕ, pr.2.Time_h = (hh : ℚ) → (hh % 24 < 6 ∨ 18 < hh % 24) →
          pr.2.PAR_umol_m2_s = 0)
      (fun _ _ _ => trivial) ?_ hours 0 _ trivial pr hpr
    intro h' st' _ hcyc hh hth hdark
    rw [step_time_h] at hth
    have hh_eq : hh = h' := by exact_mod_cast hth.symm
    rw [hh_eq] at hdark
    show roundTo 1 (liOf (scenarioParamsOf lvl sc) o2 (sc.sr h') h') = 0
    have hli : liOf (scenarioParamsOf lvl sc) o2 (sc.sr h') h' = 0 := by
      unfold liOf lightIntensity
      rw [if_neg (by rw [show (scenarioParamsOf lvl sc).lightRegime = LightRegime.cyclic
          from hcyc]; exact fun hcon => LightRegime.noConfusion hcon),
        if_neg (by omega)]
    rw [hli, roundTo_zero]
  · intro hdark
    unfold realisticLightIntensity
    rw [if_neg (fun hcon => LightRegime.noConfusion hcon), if_neg (by omega)]
    norm_num

theorem C4_darkness_zero_PAR_witness :
    lightIntensity (scenarioParamsOf "medium" zScen) zeroOracle 0 0 = 0 ∧
    realisticLightIntensity 150 LightRegime.cyclic zeroOracle 0 0 = 0 := by
  have h := C4_darkness_zero_PAR (scenarioParamsOf "medium" zScen) zeroOracle 0 0
    zeroOracle "medium" zScen 1 1 150 0 0
  refine ⟨h.1 ?_ (by norm_num), h.2.2 (by norm_num)⟩
  show (sampleParams (variabilityConfig "medium") zScen.pr).lightRegime = LightRegime.cyclic
  rw [cfg_medium]
  simp only [sampleParams, zScen]
  norm_num

/-- C4 counterexample: the claim as stated also covers part_003's
`generateRealisticData` (its cited source), whose day window is
hour-of-day `[6, 22)`; at hour-of-day 19 — outside `[6, 18]` — a cyclic
scenario there generates strictly positive light: with `maxPAR = 150`,
jitter draw `0` and the valid oracle value `sinPi (13/16) = 5/9`
(≈ `sin (13π/16)`), the intensity is `150 · (5/9) · (4/5) = 200/3 ≠ 0`. -/
theorem C4_darkness_counterexample :
    OracleValid c4Oracle ∧ (19 % 24 < 6 ∨ 18 < 19 % 24) ∧
    realisticLightIntensity 150 LightRegime.cyclic c4Oracle 0 19 = 200/3 ∧
    (200/3 : ℚ) ≠ 0 := by
  refine ⟨c4Oracle_valid, by norm_num, ?_, by norm_num⟩
  unfold realisticLightIntensity
  rw [if_neg (fun hcon => LightRegime.noConfusion hcon), if_pos (by norm_num)]
  norm_num [c4Oracle]

/-- C5 (amended): for every generated DataPoint the unrounded protein,
lipid and carbohydrate percentages sum to exactly 100 by construction
(carbohydrate is `100 - protein - lipid` before serialization), and the
three recorded one-decimal fields sum to within `0.15` of 100 — but not
always exactly 100, since each field is rounded independently. -/
theorem C5_composition_sum (p : ScenarioParams) (o : Oracle) (r : ℕ → ℚ) (s h : ℕ)
    (st : CultureState) :
    (step p o r s h st).2.Carbohydrate_Content_percent =
      roundTo 1 (100 - proteinOf p r st - lipidOf p r st) ∧
    proteinOf p r st + lipidOf p r st + (100 - proteinOf p r st - lipidOf p r st) = 100 ∧
    |(step p o r s h st).2.Protein_Content_percent +
      (step p o r s h st).2.Lipid_Content_percent +
      (step p o r s h st).2.Carbohydrate_Content_percent - 100| ≤ 3/20 := by
  refine ⟨rfl, by ring, ?_⟩
  have h1 := abs_roundTo_sub (d := 1) (proteinOf p r st)
  have h2 := abs_roundTo_sub (d := 1) (lipidOf p r st)
  have h3 := abs_roundTo_sub (d := 1) (100 - proteinOf p r st - lipidOf p r st)
  have e : (1:ℚ) / (2 * 10 ^ 1) = 1/20 := by norm_num
  rw [e] at h1 h2 h3
  show |roundTo 1 (proteinOf p r st) + roundTo 1 (lipidOf p r st) +
    roundTo 1 (100 - proteinOf p r st - lipidOf p r st) - 100| ≤ 3/20
  rw [abs_le] at h1 h2 h3 ⊢
  constructor <;> linarith [h1.1, h1.2, h2.1, h2.2, h3.1, h3.2]

/-- C5 counterexample: a fully valid, fully realizable run (all
transcendental values are consulted at argument 0 only, where
`sin 0 = 0` and `exp 0 = 1` exactly) in which the single generated
DataPoint has serialized protein `47.5`, lipid `11.7` and carbohydrate
`40.7`: the recorded sum is `99.9 ≠ 100`, refuting the claim that the
three serialized fields always sum to exactly 100. -/
theorem C5_composition_counterexample :
    OracleValid zeroOracle ∧ cScen.Valid ∧
    ((generateAdvancedData zeroOracle (fun _ => cScen) 1 1 "medium").map
      (fun dp => dp.Protein_Content_percent + dp.Lipid_Content_percent +
        dp.Carbohydrate_Content_percent)) = [999/10] := by
  refine ⟨zeroOracle_valid, cScen_valid, ?_⟩
  norm_num [generateAdvancedData, scenarioData, runTrace, step, scenarioParamsOf,
    sampleParams, cfg_medium, initState, proteinOf, lipidOf, nOf, newNutrients,
    nutrientUptakeOf, nutrientEffectOf, roundTo, round_eq, zeroOracle, cPr, cSr, cScen,
    range_one_eq]

/-- C7: the 70/15/15 split takes `train = ⌊0.7 n⌋` records, then
`valid = ⌊0.15 n⌋` records, and the test split receives all remaining
records, so the three sizes always add up to `n`. -/
theorem C7_split_sizes {α : Type*} (xs : List α) :
    (splitDataset xs).1.length = 7 * xs.length / 10 ∧
    (splitDataset xs).2.1.length = 15 * xs.length / 100 ∧
    (splitDataset xs).2.2.length =
      xs.length - (7 * xs.length / 10 + 15 * xs.length / 100) ∧
    (splitDataset xs).1.length + (splitDataset xs).2.1.length +
      (splitDataset xs).2.2.length = xs.length := by
  unfold splitDataset
  rw [trainSize_eq, validSize_eq]
  refine ⟨?_, ?_, ?_, ?_⟩ <;>
    simp only [List.length_take, List.length_drop] <;> omega

/-- C8: the `/generate-dataset` handler answers HTTP 400 with
`success: false` exactly when a request parameter is out of range
(scenarios outside `[1, 100]`, hours outside `[24, 480]`, or an unknown
variability level); in that case no simulation output is produced, no
filesystem effect happens, and the response does not depend on the
generator inputs or on whether writes would succeed (the rejection
happens before any simulation or output). -/
theorem C8_validation (o : Oracle) (R : ℕ → ScenRandoms) (rq : GenRequest)
    (writeOk : Bool) :
    (((generateDatasetHandler o R rq writeOk).status = 400 ∧
        (generateDatasetHandler o R rq writeOk).success = false) ↔ InvalidRequest rq) ∧
    (InvalidRequest rq →
      (generateDatasetHandler o R rq writeOk).effects = [] ∧
      (generateDatasetHandler o R rq writeOk).points = [] ∧
      ∀ (o' : Oracle) (R' : ℕ → ScenRandoms) (w' : Bool),
        generateDatasetHandler o' R' rq w' = generateDatasetHandler o R rq writeOk) := by
  unfold generateDatasetHandler InvalidRequest
  split_ifs with h1 h2 h3 h4 <;> simp_all <;> tauto

theorem C8_validation_witness :
    (generateDatasetHandler zeroOracle (fun _ => halfScen)
      ⟨0, 120, "medium"⟩ true).status = 400 ∧
    (generateDatasetHandler zeroOracle (fun _ => halfScen)
      ⟨0, 120, "medium"⟩ true).effects = [] := by
  have h := C8_validation zeroOracle (fun _ => halfScen) ⟨0, 120, "medium"⟩ true
  have hinv : InvalidRequest ⟨0, 120, "medium"⟩ := Or.inl (by norm_num)
  exact ⟨(h.1.mpr hinv).1, (h.2 hinv).1⟩

/-- C9 (amended): serializing a nonempty uniformly-keyed table of at most
1000 records whose serialized cells are comma- and newline-free and not
blank with the CSV writer, then parsing it back with the `/sample-data`
reader's line/comma split, reproduces the header and every row exactly —
hence the same number of rows and the same cell strings, so the same
numeric values at the serialized precision and the same non-numeric
strings.  Both restrictions are forced by the code: the reader samples
only the first 1000 rows, and the writer leaves commas unquoted. -/
theorem C9_csv_roundtrip (header : List (List Char)) (rows : List (List (List Char)))
    (hh : header ≠ []) (hrows : rows ≠ []) (hlen : rows.length ≤ 1000)
    (hgh : ∀ c ∈ header, GoodCell c)
    (hu : ∀ row ∈ rows, row.length = header.length)
    (hgr : ∀ row ∈ rows, ∀ c ∈ row, GoodCell c) :
    csvSampleRows (toCSV header rows) = (header, rows) ∧
    (csvSampleRows (toCSV header rows)).2.length = rows.length := by
  have h := csvSampleRows_toCSV hh hrows hlen hgh hu hgr
  exact ⟨h, by rw [h]⟩

theorem C9_csv_roundtrip_witness :
    csvSampleRows (toCSV [[ 'A' ]] [[[ '1' ]]]) = ([[ 'A' ]], [[[ '1' ]]]) :=
  (C9_csv_roundtrip [[ 'A' ]] [[[ '1' ]]] (by decide) (by decide) (by decide)
    (by decide) (by decide) (by decide)).1

/-- C9 counterexample: the round trip is claimed for every nonempty
uniformly-keyed sequence, but a string field containing a comma is split
by the reader's naive comma split: with header `A,B` and the single
record `("x,y", 1)`, the parsed row is `["x", "y", "1"]` — field `A`
reads back `"x"` rather than `"x,y"` and field `B` reads back `"y"`
rather than the numeric value `1`. -/
theorem C9_csv_counterexample :
    ([[[ 'x', ',', 'y' ], [ '1' ]]] : List (List (List Char))).length = 1 ∧
    (csvSampleRows (toCSV [[ 'A' ], [ 'B' ]] [[[ 'x', ',', 'y' ], [ '1' ]]])).2 =
      [[[ 'x' ], [ 'y' ], [ '1' ]]] ∧
    (csvSampleRows (toCSV [[ 'A' ], [ 'B' ]] [[[ 'x', ',', 'y' ], [ '1' ]]])).2 ≠
      [[[ 'x', ',', 'y' ], [ '1' ]]] := by
  refine ⟨rfl, ?_, ?_⟩ <;> decide

end Chlorella
